import Mathlib

/-!
# EmberBurn web UI: polling scheduler and view synchronizers

A shallow embedding of `static/js/app.js`, `dashboard.js`, `tags.js`,
`alarms.js` and `publishers.js`, followed by the properties proved about it.

* Part 1: the `AutoUpdater` class with the host timer facility
  (`setInterval` / `clearInterval`) it drives, as a state machine.
* Part 2: scalar values, the host functions the program calls, the formatting
  utilities and template literals.
* Part 3: the payloads of the Remote Data Client, the display regions, and
  computations that write to the page, perform effects and may throw.
* Parts 4 to 7: the four views and the toggle handler.
* Part 8: the observations used in the statements, and sample data.

Asynchronous functions are run to completion one at a time: the interleaving
of overlapping updates is not part of the embedding.
-/

namespace Emberburn

/-! ## Part 1: the scheduler (`app.js`, class `AutoUpdater`) -/

/-- How a call returns to its caller: normally, or by a synchronously thrown
exception. -/
inductive Completion where
  | normal
  | threw
  deriving DecidableEq, Repr

/-- The host timer facility, restricted to the interval timers of one
`AutoUpdater`. Handles are positive integers (the HTML timer specification
returns an integer greater than zero); `created` and `cleared` are ghost
counters of timers created and of active timers cancelled. -/
structure TimerHost where
  lastHandle : Nat
  active : List Nat
  created : Nat
  cleared : Nat
  deriving DecidableEq, Repr

/-- Fields of an `AutoUpdater` instance. `intervalId` is `none` for the
JavaScript value `null`; `interval` is the period in milliseconds. -/
structure AutoUpdater where
  interval : Nat
  intervalId : Option Nat
  isRunning : Bool
  deriving DecidableEq, Repr

/-- One `AutoUpdater` with the host timers it owns. `calls` counts the
invocations of the bound update function so far and `reported` the exceptions
the host reported from timer callbacks. -/
structure World where
  u : AutoUpdater
  host : TimerHost
  calls : Nat
  reported : Nat
  deriving DecidableEq, Repr

/-- The bound update function as seen by the scheduler: for the k-th
invocation (counted from 0) it says whether that invocation throws
synchronously. An invocation that returns a promise, also one that later
rejects, returns normally. The update function does not call the methods of
the `AutoUpdater` it is bound to (none of the four update functions of this
program does). -/
abbrev UpdateFunction := Nat → Bool

/-- State after `new AutoUpdater(updateFunction, interval)` on a host that has
created no timer for it yet. -/
def AutoUpdater.new (interval : Nat) : World :=
  { u := { interval := interval, intervalId := none, isRunning := false },
    host := { lastHandle := 0, active := [], created := 0, cleared := 0 },
    calls := 0, reported := 0 }

/-- Host `setInterval(callback, interval)`: registers a recurring timer and
returns its fresh positive handle. -/
def setInterval (h : TimerHost) : Nat × TimerHost :=
  let id := h.lastHandle + 1
  (id, { lastHandle := id, active := id :: h.active,
         created := h.created + 1, cleared := h.cleared })

/-- Host `clearInterval(id)`: cancels the timer with that handle if it is
active, and does nothing otherwise. -/
def clearInterval (h : TimerHost) (id : Nat) : TimerHost :=
  if id ∈ h.active then
    { h with active := h.active.filter (fun x => x != id), cleared := h.cleared + 1 }
  else h

/-- One invocation `this.updateFunction()`. -/
def invoke (f : UpdateFunction) (w : World) : Completion × World :=
  (if f w.calls then Completion.threw else Completion.normal,
   { w with calls := w.calls + 1 })

/-- Method `start()`. A throw of the immediate invocation leaves `start`
before `setInterval` is reached; the assignment to `isRunning` made before it
persists. -/
def AutoUpdater.start (f : UpdateFunction) (w : World) : Completion × World :=
  if w.u.isRunning then (Completion.normal, w)
  else
    let w1 := { w with u := { w.u with isRunning := true } }
    match invoke f w1 with
    | (Completion.threw, w2) => (Completion.threw, w2)
    | (Completion.normal, w2) =>
      let r := setInterval w2.host
      (Completion.normal,
       { w2 with u := { w2.u with intervalId := some r.1 }, host := r.2 })

/-- JavaScript truthiness of the `intervalId` field: `null` and `0` are
falsy. -/
def truthyId : Option Nat → Bool
  | none => false
  | some id => id != 0

/-- Method `stop()`. -/
def AutoUpdater.stop (w : World) : World :=
  let w1 :=
    if truthyId w.u.intervalId then
      match w.u.intervalId with
      | some id => { w with host := clearInterval w.host id,
                            u := { w.u with intervalId := none } }
      | none => w
    else w
  { w1 with u := { w1.u with isRunning := false } }

/-- Method `restart()`: `this.stop(); this.start();`. -/
def AutoUpdater.restart (f : UpdateFunction) (w : World) : Completion × World :=
  AutoUpdater.start f (AutoUpdater.stop w)

/-- The host fires one active interval timer: its callback
`() => { this.updateFunction(); }` runs. An exception thrown by the callback is
reported by the host and the timer stays registered. -/
def fire (f : UpdateFunction) (w : World) : World :=
  match invoke f w with
  | (Completion.threw, w1) => { w1 with reported := w1.reported + 1 }
  | (Completion.normal, w1) => w1

/-- One period elapses: every interval timer active at that moment fires
once. -/
def tick (f : UpdateFunction) (w : World) : World :=
  w.host.active.foldl (fun acc _ => fire f acc) w

/-- The period elapses `n` times in a row. -/
def ticks (f : UpdateFunction) : Nat → World → World
  | 0, w => w
  | n + 1, w => ticks f n (tick f w)

/-- What can happen to an `AutoUpdater`: a method call by its owner (who
carries on after an exception), or the elapse of one period. -/
inductive Event where
  | start
  | stop
  | restart
  | tick
  deriving DecidableEq, Repr

/-- State after one event. -/
def step (f : UpdateFunction) (w : World) : Event → World
  | Event.start => (AutoUpdater.start f w).2
  | Event.stop => AutoUpdater.stop w
  | Event.restart => (AutoUpdater.restart f w).2
  | Event.tick => tick f w

/-- State after a finite sequence of events, oldest first. -/
def run (f : UpdateFunction) (evs : List Event) (w : World) : World :=
  evs.foldl (step f) w

/-- State of an `AutoUpdater` constructed with period `interval` after a finite
sequence of events. -/
def reached (f : UpdateFunction) (interval : Nat) (evs : List Event) : World :=
  run f evs (AutoUpdater.new interval)

/-- `u.start(); u.start();` as one statement sequence: a throw of the first
call leaves the sequence. -/
def startTwice (f : UpdateFunction) (w : World) : Completion × World :=
  match AutoUpdater.start f w with
  | (Completion.threw, w1) => (Completion.threw, w1)
  | (Completion.normal, w1) => AutoUpdater.start f w1

/-- Invariant tying the instance fields to the host: the active timers are
exactly the one named by `intervalId`, if any; handles are positive and not
ahead of the host counter; a held handle implies `isRunning`; and the ghost
counters account for the active timers. -/
def Consistent (w : World) : Prop :=
  w.host.active = w.u.intervalId.toList ∧
  (∀ id, w.u.intervalId = some id → 0 < id ∧ id ≤ w.host.lastHandle) ∧
  (w.u.intervalId ≠ none → w.u.isRunning = true) ∧
  w.host.created = w.host.cleared + w.host.active.length

/-! ## Part 2: values, host functions, formatting utilities (`app.js`) and
template literals -/

/-- A JavaScript error value; only its `message` is read by this program. -/
structure JSError where
  message : String
  deriving DecidableEq, Repr

/-- A scalar delivered by the backend as a tag value or a triggered value.
A number is modelled by the exact rational value it holds. -/
inductive JSValue where
  | str (s : String)
  | num (q : ℚ)
  | bool (b : Bool)
  | null
  | undefined
  deriving DecidableEq, Repr

/-- Functions of the JavaScript host that depend on locale or on the number
formatting algorithm. They are parameters of the embedding: nothing is assumed
about them unless a theorem says so. `dateToLocaleString ms` stands for
`new Date(ms).toLocaleString()`, `dateToLocaleTimeString ms` for
`new Date(ms).toLocaleTimeString()`, `numberToString` for `String` applied to a
number and `toLowerCase` for `String.prototype.toLowerCase`.
`inheritedPropertyText name` is the text of `Object.prototype[name]` in a
template literal when `name` names a property that every object inherits with
a truthy value (such as `constructor` or `toString`), and `none` for every
other name. -/
structure Host where
  numberToString : ℚ → String
  dateToLocaleString : ℚ → String
  dateToLocaleTimeString : ℚ → String
  toLowerCase : String → String
  inheritedPropertyText : String → Option String

/-- The conversion `String(value)`. -/
def jsString (h : Host) : JSValue → String
  | JSValue.str s => s
  | JSValue.num q => h.numberToString q
  | JSValue.bool true => "true"
  | JSValue.bool false => "false"
  | JSValue.null => "null"
  | JSValue.undefined => "undefined"

/-- The operator `typeof value`. -/
def JSValue.typeof : JSValue → String
  | JSValue.str _ => "string"
  | JSValue.num _ => "number"
  | JSValue.bool _ => "boolean"
  | JSValue.null => "object"
  | JSValue.undefined => "undefined"

/-- Function `formatTimestamp(timestamp)`. -/
def formatTimestamp (h : Host) (timestamp : ℚ) : String :=
  h.dateToLocaleString (timestamp * 1000)

/-- Function `formatTimeOnly(timestamp)`. -/
def formatTimeOnly (h : Host) (timestamp : ℚ) : String :=
  h.dateToLocaleTimeString (timestamp * 1000)

/-- Serialisation of one character of a text node, as `innerHTML` performs it:
`&`, `<`, `>` and the no-break space are replaced by character references. -/
def escapeChar (c : Char) : List Char :=
  if c = '&' then "&amp;".data
  else if c = '<' then "&lt;".data
  else if c = '>' then "&gt;".data
  else if c = Char.ofNat 160 then "&nbsp;".data
  else [c]

/-- Function `escapeHTML(str)`: the string is stored as the text content of a
fresh `div` and the serialisation of that `div`'s children is returned. -/
def escapeHTML (str : String) : String :=
  String.mk (str.data.flatMap escapeChar)

/-- A template literal: a sequence of fixed text and of substitutions
`${...}`, the latter given by the string the expression evaluates to. -/
inductive Piece where
  | fixed (s : String)
  | subst (s : String)
  deriving DecidableEq, Repr

/-- The text a piece contributes. -/
def Piece.text : Piece → String
  | Piece.fixed s => s
  | Piece.subst s => s

/-- The string a template literal evaluates to: its pieces in order. -/
def Piece.render (ps : List Piece) : String :=
  String.join (ps.map Piece.text)

/-! ## Part 3: payloads, the display and the effects of an update -/

/-- One entry of the tag mapping: `{ value, timestamp }`. -/
structure TagData where
  value : JSValue
  timestamp : ℚ
  deriving DecidableEq, Repr

/-- Payload of `getTags`. The field `tags` may be absent; when present it is
given by its entries in the iteration order of `Object.entries`. -/
structure TagsData where
  tags : Option (List (String × TagData))
  deriving DecidableEq, Repr

/-- One active alarm. -/
structure Alarm where
  priority : String
  rule_name : String
  tag : String
  triggered_value : JSValue
  message : String
  triggered_at : ℚ
  deriving DecidableEq, Repr

/-- Payload of `getActiveAlarms`; the field `alarms` may be absent. -/
structure AlarmsData where
  alarms : Option (List Alarm)
  deriving DecidableEq, Repr

/-- One publisher; `description` is optional. -/
structure Publisher where
  name : String
  enabled : Bool
  description : Option String
  deriving DecidableEq, Repr

/-- Payload of `getPublishers`; the field `publishers` may be absent. -/
structure PublishersData where
  publishers : Option (List Publisher)
  deriving DecidableEq, Repr

/-- The display regions the four views write to, each holding the content last
assigned to it. -/
structure Display where
  activeTagsCount : String
  publishersCount : String
  alarmsCount : String
  alarmsCountColor : String
  criticalCount : String
  liveTagsTable : String
  tagsTable : String
  alarmsContainer : String
  publishersGrid : String
  deriving DecidableEq, Repr

/-- Observable effects other than writes to the display. -/
inductive Effect where
  | request (operation : String) (argument : Option String)
  | consoleError (label : String) (error : JSError)
  | consoleLog (label : String) (payload : String)
  | alert (text : String)
  deriving DecidableEq, Repr

/-- The page: what is displayed, and the effects performed so far, oldest
first. -/
structure Page where
  display : Display
  trace : List Effect
  deriving DecidableEq, Repr

/-- A JavaScript computation on the page that returns a value or throws;
writes made before a throw persist. For an `async` function, a throw stands
for the rejection of the promise it returns. -/
abbrev JS (α : Type) := ExceptT JSError (StateM Page) α

/-- Runs a computation from a page: its outcome and the page afterwards. -/
def JS.exec {α : Type} (x : JS α) (p : Page) : Except JSError α × Page :=
  (ExceptT.run x).run p

/-- The settled outcome of an asynchronous call: fulfilled with a value or
rejected with an error. -/
abbrev Promise (α : Type) := Except JSError α

/-- Modelled from the spec: the object `api` (the Remote Data Client) is not
among the source files. Its four operations are those the source calls; each
is asynchronous and may fail on its own. The client is a parameter of the
embedding: it gives, for one update, the outcome of each read and of a toggle
of each publisher name. -/
structure Api where
  tags : Promise TagsData
  publishers : Promise PublishersData
  activeAlarms : Promise AlarmsData
  toggle : String → Promise String

/-- Records an effect at the end of the trace. -/
def emit (e : Effect) : JS Unit :=
  modify (fun p => { p with trace := p.trace ++ [e] })

/-- Applies a write to the display. -/
def writeDisplay (f : Display → Display) : JS Unit :=
  modify (fun p => { p with display := f p.display })

/-- Call `api.getTags()`. -/
def Api.getTags (api : Api) : JS (Promise TagsData) := do
  emit (Effect.request "getTags" none)
  pure api.tags

/-- Call `api.getPublishers()`. -/
def Api.getPublishers (api : Api) : JS (Promise PublishersData) := do
  emit (Effect.request "getPublishers" none)
  pure api.publishers

/-- Call `api.getActiveAlarms()`. -/
def Api.getActiveAlarms (api : Api) : JS (Promise AlarmsData) := do
  emit (Effect.request "getActiveAlarms" none)
  pure api.activeAlarms

/-- Call `api.togglePublisher(publisherName)`. -/
def Api.togglePublisher (api : Api) (publisherName : String) : JS (Promise String) := do
  emit (Effect.request "togglePublisher" (some publisherName))
  pure (api.toggle publisherName)

/-- The operator `await`: the value of a fulfilled promise, or a throw of the
error of a rejected one. -/
def await {α : Type} (p : Promise α) : JS α :=
  match p with
  | Except.ok a => pure a
  | Except.error e => throw e

/-- `Promise.all` of three promises: fulfilled with the three values when all
are fulfilled, rejected otherwise. When several reject, the error of the first
in array order is taken (the host takes the first to settle). -/
def promiseAll3 {α β γ : Type} (a : Promise α) (b : Promise β) (c : Promise γ) :
    Promise (α × β × γ) :=
  match a, b, c with
  | Except.ok x, Except.ok y, Except.ok z => Except.ok (x, y, z)
  | Except.error e, _, _ => Except.error e
  | _, Except.error e, _ => Except.error e
  | _, _, Except.error e => Except.error e

/-! ## Part 4: the tags view (`tags.js`) -/

/-- The template literal of the arrow function mapped over the entries in
`renderTagsTable`, for one entry `[name, data]`. -/
def tagRowTemplate (h : Host) (e : String × TagData) : List Piece :=
    [Piece.fixed "\n",
     Piece.fixed "        <tr>\n",
     Piece.fixed "            <td style=\"font-weight: bold;\">",
     Piece.subst (escapeHTML e.1),
     Piece.fixed "</td>\n",
     Piece.fixed "            <td style=\"color: var(--fire-yellow); font-size: 18px;\">",
     Piece.subst (escapeHTML (jsString h e.2.value)),
     Piece.fixed "</td>\n",
     Piece.fixed "            <td>",
     Piece.subst (JSValue.typeof e.2.value),
     Piece.fixed "</td>\n",
     Piece.fixed "            <td>",
     Piece.subst (formatTimestamp h e.2.timestamp),
     Piece.fixed "</td>\n",
     Piece.fixed "            <td>\n",
     Piece.fixed "                <button class=\"btn btn-secondary\" style=\"padding: 5px 10px; font-size: 12px;\" \n",
     Piece.fixed "                        onclick=\"alert(\x27History view coming soon!\x27)\">\n",
     Piece.fixed "                    📊 History\n",
     Piece.fixed "                </button>\n",
     Piece.fixed "            </td>\n",
     Piece.fixed "        </tr>\n",
     Piece.fixed "    "]

/-- The arrow function mapped over the entries in `renderTagsTable`. -/
def tagRow (h : Host) (e : String × TagData) : String :=
  Piece.render (tagRowTemplate h e)

/-- Function `renderTagsTable(tagsData)`, as the write it makes to the region
`tags-table`. -/
def renderTagsTable (h : Host) (tagsData : TagsData) (d : Display) : Display :=
  let tagEntries := tagsData.tags.getD []
  if tagEntries.length = 0 then
    { d with tagsTable :=
        "<tr><td colspan=\"5\" class=\"loading\">No tags available</td></tr>" }
  else
    { d with tagsTable := String.join (tagEntries.map (tagRow h)) }

/-- Function `updateTagsView()`. -/
def updateTagsView (h : Host) (api : Api) : JS Unit := do
  try
    let tagsData ← await (← api.getTags)
    writeDisplay (renderTagsTable h tagsData)
  catch error =>
    emit (Effect.consoleError "Tags update error:" error)

/-! ## Part 5: the dashboard (`dashboard.js`) -/

/-- Function `updateMetricCards(tagsData, publishersData, alarmsData)`, as the
writes it makes to the four metric regions. -/
def updateMetricCards (tagsData : TagsData) (publishersData : PublishersData)
    (alarmsData : AlarmsData) (d : Display) : Display :=
  let activeTags := (tagsData.tags.getD []).length
  let publishers := publishersData.publishers.getD []
  let enabledCount := (publishers.filter (fun p => p.enabled)).length
  let alarms := alarmsData.alarms.getD []
  let criticalAlarms := (alarms.filter (fun a => a.priority == "CRITICAL")).length
  { d with
    activeTagsCount := toString activeTags
    publishersCount := toString enabledCount ++ " / " ++ toString publishers.length
    alarmsCount := toString alarms.length
    alarmsCountColor :=
      if criticalAlarms > 0 then "var(--error-red)" else "var(--success-green)"
    criticalCount := toString criticalAlarms ++ " critical" }

/-- The template literal of the arrow function mapped over the entries in
`updateLiveTagsTable`. -/
def liveTagRowTemplate (h : Host) (e : String × TagData) : List Piece :=
    [Piece.fixed "\n",
     Piece.fixed "        <tr>\n",
     Piece.fixed "            <td style=\"font-weight: bold;\">",
     Piece.subst (escapeHTML e.1),
     Piece.fixed "</td>\n",
     Piece.fixed "            <td style=\"color: var(--fire-yellow); font-size: 18px;\">",
     Piece.subst (escapeHTML (jsString h e.2.value)),
     Piece.fixed "</td>\n",
     Piece.fixed "            <td>",
     Piece.subst (formatTimeOnly h e.2.timestamp),
     Piece.fixed "</td>\n",
     Piece.fixed "            <td><span class=\"status-badge status-active pulse\">LIVE</span></td>\n",
     Piece.fixed "        </tr>\n",
     Piece.fixed "    "]

/-- The arrow function mapped over the entries in `updateLiveTagsTable`. -/
def liveTagRow (h : Host) (e : String × TagData) : String :=
  Piece.render (liveTagRowTemplate h e)

/-- Function `updateLiveTagsTable(tagsData)`, as the write it makes to the
region `live-tags-table`. -/
def updateLiveTagsTable (h : Host) (tagsData : TagsData) (d : Display) : Display :=
  let tags := tagsData.tags.getD []
  let tagEntries := tags.take 10
  if tagEntries.length = 0 then
    { d with liveTagsTable :=
        "<tr><td colspan=\"4\" class=\"loading\">No tags available</td></tr>" }
  else
    { d with liveTagsTable := String.join (tagEntries.map (liveTagRow h)) }

/-- Function `updateDashboard()`. The three reads are issued first and awaited
jointly. -/
def updateDashboard (h : Host) (api : Api) : JS Unit := do
  try
    let p1 ← api.getTags
    let p2 ← api.getPublishers
    let p3 ← api.getActiveAlarms
    let (tagsData, publishersData, alarmsData) ← await (promiseAll3 p1 p2 p3)
    writeDisplay (updateMetricCards tagsData publishersData alarmsData)
    writeDisplay (updateLiveTagsTable h tagsData)
  catch error =>
    emit (Effect.consoleError "Dashboard update error:" error)

/-! ## Part 6: the alarms view (`alarms.js`) -/

/-- The template literal shown by `renderAlarmsView` when there is no alarm. -/
def alarmsEmptyState : String :=
    Piece.render
    [Piece.fixed "\n",
     Piece.fixed "            <div class=\"card empty-state\">\n",
     Piece.fixed "                <div class=\"empty-state-icon\">✅</div>\n",
     Piece.fixed "                <h2>All Systems Normal</h2>\n",
     Piece.fixed "                <p>No active alarms</p>\n",
     Piece.fixed "            </div>\n",
     Piece.fixed "        "]

/-- The template literal of the arrow function mapped over the alarms in
`renderAlarmsView`. -/
def alarmRowTemplate (h : Host) (alarm : Alarm) : List Piece :=
    [Piece.fixed "\n",
     Piece.fixed "                        <tr>\n",
     Piece.fixed "                            <td>\n",
     Piece.fixed "                                <span class=\"status-badge status-",
     Piece.subst (h.toLowerCase alarm.priority),
     Piece.fixed "\">\n",
     Piece.fixed "                                    ",
     Piece.subst (escapeHTML alarm.priority),
     Piece.fixed "\n",
     Piece.fixed "                                </span>\n",
     Piece.fixed "                            </td>\n",
     Piece.fixed "                            <td style=\"font-weight: bold;\">",
     Piece.subst (escapeHTML alarm.rule_name),
     Piece.fixed "</td>\n",
     Piece.fixed "                            <td>",
     Piece.subst (escapeHTML alarm.tag),
     Piece.fixed "</td>\n",
     Piece.fixed "                            <td style=\"color: var(--fire-yellow);\">",
     Piece.subst (escapeHTML (jsString h alarm.triggered_value)),
     Piece.fixed "</td>\n",
     Piece.fixed "                            <td>",
     Piece.subst (escapeHTML alarm.message),
     Piece.fixed "</td>\n",
     Piece.fixed "                            <td>",
     Piece.subst (formatTimestamp h alarm.triggered_at),
     Piece.fixed "</td>\n",
     Piece.fixed "                        </tr>\n",
     Piece.fixed "                    "]

/-- The arrow function mapped over the alarms in `renderAlarmsView`. -/
def alarmRow (h : Host) (alarm : Alarm) : String :=
  Piece.render (alarmRowTemplate h alarm)

/-- The template literal of the table in `renderAlarmsView`; its one
substitution is the joined rows. -/
def alarmsTableTemplate (h : Host) (alarms : List Alarm) : List Piece :=
    [Piece.fixed "\n",
     Piece.fixed "        <div class=\"table-container\">\n",
     Piece.fixed "            <table>\n",
     Piece.fixed "                <thead>\n",
     Piece.fixed "                    <tr>\n",
     Piece.fixed "                        <th>Priority</th>\n",
     Piece.fixed "                        <th>Alarm</th>\n",
     Piece.fixed "                        <th>Tag</th>\n",
     Piece.fixed "                        <th>Value</th>\n",
     Piece.fixed "                        <th>Message</th>\n",
     Piece.fixed "                        <th>Time</th>\n",
     Piece.fixed "                    </tr>\n",
     Piece.fixed "                </thead>\n",
     Piece.fixed "                <tbody>\n",
     Piece.fixed "                    ",
     Piece.subst (String.join (alarms.map (alarmRow h))),
     Piece.fixed "\n",
     Piece.fixed "                </tbody>\n",
     Piece.fixed "            </table>\n",
     Piece.fixed "        </div>\n",
     Piece.fixed "    "]

/-- Function `renderAlarmsView(alarmsData)`, as the write it makes to the
region `alarms-container`. -/
def renderAlarmsView (h : Host) (alarmsData : AlarmsData) (d : Display) : Display :=
  let alarms := alarmsData.alarms.getD []
  if alarms.length = 0 then
    { d with alarmsContainer := alarmsEmptyState }
  else
    { d with alarmsContainer := Piece.render (alarmsTableTemplate h alarms) }

/-- Function `updateAlarmsView()`. -/
def updateAlarmsView (h : Host) (api : Api) : JS Unit := do
  try
    let alarmsData ← await (← api.getActiveAlarms)
    writeDisplay (renderAlarmsView h alarmsData)
  catch error =>
    emit (Effect.consoleError "Alarms update error:" error)

/-! ## Part 7: the publishers view (`publishers.js`) -/

/-- The table `PROTOCOL_ICONS`. -/
def PROTOCOL_ICONS : List (String × String) :=
  [("MQTT", "📨"),
   ("REST API", "🌐"),
   ("GraphQL", "🔷"),
   ("Sparkplug B", "⚡"),
   ("Kafka", "🎯"),
   ("AMQP", "🐰"),
   ("WebSocket", "🔌"),
   ("InfluxDB", "📊"),
   ("MODBUS TCP", "🔧"),
   ("OPC UA Client", "🔗"),
   ("Alarms", "🚨")]

/-- The expression `PROTOCOL_ICONS[pub.name] || '📡'`: the icon of an own key of
the table, else the property the table inherits under that name, else the
fallback icon. -/
def protocolIcon (h : Host) (name : String) : String :=
  match PROTOCOL_ICONS.lookup name with
  | some icon => icon
  | none => (h.inheritedPropertyText name).getD "📡"

/-- The expression `pub.description || 'Data publishing protocol'`: an absent
or empty description is falsy. -/
def descriptionOrDefault : Option String → String
  | none => "Data publishing protocol"
  | some s => if s = "" then "Data publishing protocol" else s

/-- The template literal of the arrow function mapped over the publishers in
`renderPublishersGrid`. -/
def publisherCardTemplate (h : Host) (pub : Publisher) : List Piece :=
    [Piece.fixed "\n",
     Piece.fixed "        <div class=\"publisher-card\">\n",
     Piece.fixed "            <div class=\"publisher-header\">\n",
     Piece.fixed "                <div class=\"publisher-title\">\n",
     Piece.fixed "                    <span class=\"publisher-icon\">",
     Piece.subst (protocolIcon h pub.name),
     Piece.fixed "</span>\n",
     Piece.fixed "                    ",
     Piece.subst (escapeHTML pub.name),
     Piece.fixed "\n",
     Piece.fixed "                </div>\n",
     Piece.fixed "                <span class=\"status-badge ",
     Piece.subst (if pub.enabled then "status-active" else "status-inactive"),
     Piece.fixed "\">\n",
     Piece.fixed "                    ",
     Piece.subst (if pub.enabled then "ENABLED" else "DISABLED"),
     Piece.fixed "\n",
     Piece.fixed "                </span>\n",
     Piece.fixed "            </div>\n",
     Piece.fixed "            <div class=\"publisher-description\">\n",
     Piece.fixed "                ",
     Piece.subst (descriptionOrDefault pub.description),
     Piece.fixed "\n",
     Piece.fixed "            </div>\n",
     Piece.fixed "            <div class=\"publisher-actions\">\n",
     Piece.fixed "                <button class=\"btn ",
     Piece.subst (if pub.enabled then "btn-danger" else "btn-success"),
     Piece.fixed "\" \n",
     Piece.fixed "                        onclick=\"togglePublisher(\x27",
     Piece.subst (escapeHTML pub.name),
     Piece.fixed "\x27)\">\n",
     Piece.fixed "                    ",
     Piece.subst (if pub.enabled then "⏸️ Disable" else "▶️ Enable"),
     Piece.fixed "\n",
     Piece.fixed "                </button>\n",
     Piece.fixed "                <button class=\"btn btn-secondary\" onclick=\"alert(\x27Config editor coming soon!\x27)\">\n",
     Piece.fixed "                    ⚙️ Config\n",
     Piece.fixed "                </button>\n",
     Piece.fixed "            </div>\n",
     Piece.fixed "        </div>\n",
     Piece.fixed "    "]

/-- The arrow function mapped over the publishers in `renderPublishersGrid`. -/
def publisherCard (h : Host) (pub : Publisher) : String :=
  Piece.render (publisherCardTemplate h pub)

/-- Function `renderPublishersGrid(publishersData)`, as the write it makes to
the region `publishers-grid`. -/
def renderPublishersGrid (h : Host) (publishersData : PublishersData) (d : Display) :
    Display :=
  let publishers := publishersData.publishers.getD []
  if publishers.length = 0 then
    { d with publishersGrid :=
        "<div class=\"card\"><p style=\"text-align: center; color: var(--smoke-gray);\">No publishers configured</p></div>" }
  else
    { d with publishersGrid := String.join (publishers.map (publisherCard h)) }

/-- Function `updatePublishersView()`. -/
def updatePublishersView (h : Host) (api : Api) : JS Unit := do
  try
    let publishersData ← await (← api.getPublishers)
    writeDisplay (renderPublishersGrid h publishersData)
  catch error =>
    emit (Effect.consoleError "Publishers update error:" error)

/-- Function `togglePublisher(publisherName)`. -/
def togglePublisher (h : Host) (api : Api) (publisherName : String) : JS Unit := do
  try
    let result ← await (← api.togglePublisher publisherName)
    emit (Effect.consoleLog "Toggle result:" result)
    updatePublishersView h api
  catch error =>
    emit (Effect.consoleError "Toggle publisher error:" error)
    emit (Effect.alert ("Failed to toggle publisher: " ++ error.message))

/-! ## Part 8: observations on rendered content and on traces

These definitions are not part of the program: they say how rendered markup
and traces are inspected in the statements below. -/

/-- Number of positions of `l` at which the text `pat` starts. -/
def occurrences (pat : List Char) : List Char → Nat
  | [] => 0
  | c :: t => (if pat.isPrefixOf (c :: t) then 1 else 0) + occurrences pat t

/-- Number of `tr` start tags in a piece of markup: the table rows it holds. -/
def countRows (markup : String) : Nat :=
  occurrences "<tr>".data markup.data

/-- Number of publisher cards in a piece of markup. -/
def countCards (markup : String) : Nat :=
  occurrences "<div class=\"publisher-card\">".data markup.data

/-- Whether `pat` starts at the head of `s ++ b` is already decided by `s`,
whatever `b` is: `s` covers `pat`, or differs from it at some position. -/
def decided : List Char → List Char → Bool
  | [], _ => true
  | _ :: _, [] => false
  | p :: ps, c :: cs => if p == c then decided ps cs else true

/-- Every position of `k` is decided: no occurrence of `pat` can straddle the
end of `k`. -/
def settled (pat : List Char) : List Char → Bool
  | [] => true
  | c :: t => decided pat (c :: t) && settled pat t

/-- The fixed texts of a template, in order. -/
def Piece.fixedTexts : List Piece → List String
  | [] => []
  | Piece.fixed s :: t => s :: Piece.fixedTexts t
  | Piece.subst _ :: t => Piece.fixedTexts t

/-- The substituted texts of a template, in order. -/
def Piece.substTexts : List Piece → List String
  | [] => []
  | Piece.fixed _ :: t => Piece.substTexts t
  | Piece.subst s :: t => s :: Piece.substTexts t

/-- The text contains no `<`. -/
def MarkupFree (s : String) : Prop := '<' ∉ s.data

instance (s : String) : Decidable (MarkupFree s) :=
  inferInstanceAs (Decidable ('<' ∉ s.data))

/-- The texts the host inserts unescaped hold no `<`: its formatted dates and
its texts of inherited properties. -/
def Host.MarkupFree (h : Host) : Prop :=
  (∀ ms, Emberburn.MarkupFree (h.dateToLocaleString ms) ∧
    Emberburn.MarkupFree (h.dateToLocaleTimeString ms)) ∧
  ∀ name text, h.inheritedPropertyText name = some text → Emberburn.MarkupFree text

/-- The publisher names of the `togglePublisher` requests in a trace. -/
def toggleRequests : List Effect → List String
  | [] => []
  | Effect.request "togglePublisher" (some name) :: t => name :: toggleRequests t
  | _ :: t => toggleRequests t

/-- Number of `getPublishers` requests in a trace. -/
def publisherReads (t : List Effect) : Nat :=
  t.count (Effect.request "getPublishers" none)

/-- The texts of the alerts in a trace. -/
def alertTexts : List Effect → List String
  | [] => []
  | Effect.alert text :: t => text :: alertTexts t
  | _ :: t => alertTexts t

/-! ### Sample data for the concrete instances -/

/-- A host for concrete instances: integers are printed in decimal, every
date is shown as one fixed text, lower-casing is that of ASCII, and the
inherited properties known are `constructor` and `toString`. -/
def Host.sample : Host :=
  { numberToString := fun q => toString q.num
    dateToLocaleString := fun _ => "11/14/2023, 10:13:20 PM"
    dateToLocaleTimeString := fun _ => "10:13:20 PM"
    toLowerCase := fun s => String.mk (s.data.map Char.toLower)
    inheritedPropertyText := fun name =>
      if name = "constructor" then some "function Object() \x7b [native code] \x7d"
      else if name = "toString" then some "function toString() \x7b [native code] \x7d"
      else none }

/-- The fixed text of the alarms table template before the joined rows. -/
def alarmsTableHead : String :=
  Piece.render ((alarmsTableTemplate Host.sample []).take 15)

/-- The fixed text of the alarms table template after the joined rows. -/
def alarmsTableTail : String :=
  Piece.render ((alarmsTableTemplate Host.sample []).drop 16)

/-- A display whose regions all hold the text `old`. -/
def Display.sample : Display :=
  { activeTagsCount := "old", publishersCount := "old", alarmsCount := "old",
    alarmsCountColor := "old", criticalCount := "old", liveTagsTable := "old",
    tagsTable := "old", alarmsContainer := "old", publishersGrid := "old" }

/-- A page showing `Display.sample`, with an empty trace. -/
def Page.sample : Page := { display := Display.sample, trace := [] }

/-- A tags payload with two entries. -/
def TagsData.sample : TagsData :=
  { tags := some [("Temp<1>", { value := JSValue.num 21, timestamp := 1700000000 }),
                  ("Pump", { value := JSValue.bool true, timestamp := 1700000001 })] }

/-- Two CRITICAL alarms and one WARNING alarm. -/
def AlarmsData.sample : AlarmsData :=
  { alarms := some
      [{ priority := "CRITICAL", rule_name := "HighTemp", tag := "Temp", triggered_value := JSValue.num 99,
         message := "too hot", triggered_at := 1700000002 },
       { priority := "WARNING", rule_name := "LowFlow", tag := "Flow", triggered_value := JSValue.num 1,
         message := "flow < 2", triggered_at := 1700000003 },
       { priority := "CRITICAL", rule_name := "Trip", tag := "Pump", triggered_value := JSValue.bool false,
         message := "tripped", triggered_at := 1700000004 }] }

/-- One alarm, for concrete instances. -/
def Alarm.sample : Alarm :=
  { priority := "CRITICAL", rule_name := "HighTemp", tag := "Temp",
    triggered_value := JSValue.num 99, message := "too hot", triggered_at := 1700000002 }

/-- One disabled publisher named MQTT, without description. -/
def PublishersData.sample : PublishersData :=
  { publishers := some [{ name := "MQTT", enabled := false, description := none }] }

/-- A publishers payload whose one description holds markup. -/
def PublishersData.withMarkup : PublishersData :=
  { publishers := some
      [{ name := "MQTT", enabled := true, description := some "<script>alert(1)</script>" }] }

/-- A tags payload with no entry. -/
def TagsData.empty : TagsData := { tags := some [] }

/-- A tags payload with twelve entries named `T0` to `T11`. -/
def TagsData.twelve : TagsData :=
  { tags := some ((List.range 12).map fun i =>
      ("T" ++ toString i, { value := JSValue.null, timestamp := 0 })) }

/-- An alarm whose priority holds markup. -/
def Alarm.withMarkup : Alarm :=
  { Alarm.sample with priority := "x\"><script>alert(1)</script>" }

/-- An alarm whose priority closes the badge and its cell and opens a further
table row. -/
def Alarm.withRowMarkup : Alarm :=
  { Alarm.sample with priority := "x\"></span></td></tr><tr><td>" }

/-- A client whose reads succeed with the sample payloads and whose toggle
succeeds. -/
def Api.sample : Api :=
  { tags := Except.ok TagsData.sample
    publishers := Except.ok PublishersData.sample
    activeAlarms := Except.ok AlarmsData.sample
    toggle := fun _ => Except.ok "ok" }

/-- The sample client with the publishers read rejected. -/
def Api.publishersDown : Api :=
  { Api.sample with publishers := Except.error { message := "HTTP 503" } }

/-- A client whose every call is rejected. -/
def Api.down : Api :=
  { tags := Except.error { message := "HTTP 503" }
    publishers := Except.error { message := "HTTP 503" }
    activeAlarms := Except.error { message := "HTTP 503" }
    toggle := fun _ => Except.error { message := "Publisher not found" } }

/-- An update function that throws on every invocation. -/
def alwaysThrows : UpdateFunction := fun _ => true

/-- An update function that returns from its first invocation and throws on
every later one. -/
def throwsOnTicks : UpdateFunction := fun k => decide (0 < k)

/-! ## Theorems -/

/-! ### Scheduler lemmas -/

theorem consistent_new (interval : Nat) : Consistent (AutoUpdater.new interval) := by
  simp [Consistent, AutoUpdater.new]

theorem fire_host (f : UpdateFunction) (w : World) : (fire f w).host = w.host := by
  unfold fire invoke
  by_cases h : f w.calls <;> simp [h]

theorem fire_u (f : UpdateFunction) (w : World) : (fire f w).u = w.u := by
  unfold fire invoke
  by_cases h : f w.calls <;> simp [h]

theorem fire_calls (f : UpdateFunction) (w : World) : (fire f w).calls = w.calls + 1 := by
  unfold fire invoke
  by_cases h : f w.calls <;> simp [h]

theorem foldl_fire (f : UpdateFunction) (l : List Nat) (w : World) :
    (l.foldl (fun acc _ => fire f acc) w).host = w.host ∧
    (l.foldl (fun acc _ => fire f acc) w).u = w.u ∧
    (l.foldl (fun acc _ => fire f acc) w).calls = w.calls + l.length := by
  induction l generalizing w with
  | nil => simp
  | cons a t ih =>
    simp only [List.foldl_cons, List.length_cons]
    obtain ⟨h1, h2, h3⟩ := ih (fire f w)
    refine ⟨by rw [h1, fire_host], by rw [h2, fire_u], ?_⟩
    rw [h3, fire_calls]; omega

theorem tick_host (f : UpdateFunction) (w : World) : (tick f w).host = w.host :=
  (foldl_fire f w.host.active w).1

theorem tick_u (f : UpdateFunction) (w : World) : (tick f w).u = w.u :=
  (foldl_fire f w.host.active w).2.1

theorem tick_calls (f : UpdateFunction) (w : World) :
    (tick f w).calls = w.calls + w.host.active.length :=
  (foldl_fire f w.host.active w).2.2

theorem ticks_host (f : UpdateFunction) (n : Nat) (w : World) :
    (ticks f n w).host = w.host := by
  induction n generalizing w with
  | zero => rfl
  | succ n ih => simp only [ticks]; rw [ih, tick_host]

theorem ticks_u (f : UpdateFunction) (n : Nat) (w : World) :
    (ticks f n w).u = w.u := by
  induction n generalizing w with
  | zero => rfl
  | succ n ih => simp only [ticks]; rw [ih, tick_u]

theorem ticks_calls (f : UpdateFunction) (n : Nat) (w : World) :
    (ticks f n w).calls = w.calls + n * w.host.active.length := by
  induction n generalizing w with
  | zero => simp [ticks]
  | succ n ih =>
    simp only [ticks]
    rw [ih, tick_calls, tick_host, Nat.succ_mul]; omega

theorem consistent_tick (f : UpdateFunction) (w : World) (h : Consistent w) :
    Consistent (tick f w) := by
  unfold Consistent at *
  rw [tick_host, tick_u]; exact h

theorem consistent_stop (w : World) (h : Consistent w) :
    Consistent (AutoUpdater.stop w) := by
  obtain ⟨h1, h2, h3, h4⟩ := h
  unfold AutoUpdater.stop
  cases hid : w.u.intervalId with
  | none =>
    simp only [truthyId, Bool.false_eq_true, if_false]
    refine ⟨by simpa [hid] using h1, ?_, ?_, h4⟩
    · intro id hh; simp [hid] at hh
    · intro hh; simp [hid] at hh
  | some id =>
    obtain ⟨hpos, _⟩ := h2 id hid
    have hne : (id != 0) = true := by simp; omega
    rw [hid] at h1
    simp only [truthyId, hne, if_true]
    have hact : w.host.active = [id] := by simpa using h1
    refine ⟨?_, ?_, ?_, ?_⟩
    · simp [clearInterval, hact]
    · intro j hj; simp at hj
    · intro hh; simp at hh
    · simp [clearInterval, hact]; rw [hact] at h4; simpa using h4

theorem consistent_start (f : UpdateFunction) (w : World) (h : Consistent w) :
    Consistent (AutoUpdater.start f w).2 := by
  obtain ⟨h1, h2, h3, h4⟩ := h
  unfold AutoUpdater.start
  by_cases hr : w.u.isRunning = true
  · simp only [hr, if_true]; exact ⟨h1, h2, h3, h4⟩
  · have hnone : w.u.intervalId = none := by
      by_contra hc; exact hr (h3 hc)
    have hact : w.host.active = [] := by simpa [hnone] using h1
    simp only [hr, if_false, invoke]
    by_cases hf : f w.calls = true
    · simp only [hf, if_true]
      refine ⟨by simpa [hnone] using h1, ?_, ?_, h4⟩
      · intro id hh; simp [hnone] at hh
      · intro _; rfl
    · simp only [hf, if_false, setInterval]
      refine ⟨by simp [hact], ?_, ?_, ?_⟩
      · intro id hh
        simp at hh; subst hh; simp
      · intro _; rfl
      · simp [hact]; rw [hact] at h4; simpa using h4

theorem consistent_step (f : UpdateFunction) (w : World) (e : Event) (h : Consistent w) :
    Consistent (step f w e) := by
  cases e with
  | start => exact consistent_start f w h
  | stop => exact consistent_stop w h
  | restart => exact consistent_start f _ (consistent_stop w h)
  | tick => exact consistent_tick f w h

theorem consistent_run (f : UpdateFunction) (evs : List Event) (w : World)
    (h : Consistent w) : Consistent (run f evs w) := by
  induction evs generalizing w with
  | nil => exact h
  | cons e t ih => exact ih (step f w e) (consistent_step f w e h)

theorem consistent_reached (f : UpdateFunction) (interval : Nat) (evs : List Event) :
    Consistent (reached f interval evs) :=
  consistent_run f evs _ (consistent_new interval)

theorem active_length_le_one (w : World) (h : Consistent w) : w.host.active.length ≤ 1 := by
  rw [h.1]; cases w.u.intervalId <;> simp

theorem stop_spec (w : World) (h : Consistent w) :
    (AutoUpdater.stop w).host.active = [] ∧ (AutoUpdater.stop w).u.isRunning = false ∧
    (AutoUpdater.stop w).u.intervalId = none := by
  have hc := consistent_stop w h
  have hid : (AutoUpdater.stop w).u.intervalId = none := by
    unfold AutoUpdater.stop
    cases hw : w.u.intervalId with
    | none => simp [truthyId, hw]
    | some id =>
      by_cases ht : truthyId (some id) = true
      · simp [ht]
      · exfalso
        have := (h.2.1 id hw).1
        simp [truthyId] at ht
        omega
  refine ⟨?_, ?_, hid⟩
  · rw [hc.1, hid]; rfl
  · unfold AutoUpdater.stop; rfl

theorem stop_of_stopped (w : World) (h : Consistent w) (hr : w.u.isRunning = false) :
    AutoUpdater.stop w = w := by
  have hid : w.u.intervalId = none := by
    by_contra hc
    have := h.2.2.1 hc
    rw [hr] at this
    exact Bool.noConfusion this
  unfold AutoUpdater.stop
  simp only [hid, truthyId, Bool.false_eq_true, if_false]
  cases w with
  | mk u host calls reported =>
    cases u with
    | mk i id r =>
      simp only at hr hid
      subst hr hid
      rfl

theorem start_of_running (f : UpdateFunction) (w : World) (hr : w.u.isRunning = true) :
    AutoUpdater.start f w = (Completion.normal, w) := by
  unfold AutoUpdater.start
  simp [hr]

theorem start_isRunning (f : UpdateFunction) (w : World) :
    (AutoUpdater.start f w).2.u.isRunning = true := by
  unfold AutoUpdater.start
  by_cases hr : w.u.isRunning = true
  · simp [hr]
  · simp only [hr, if_false, invoke]
    by_cases hf : f w.calls = true <;> simp [hf]

theorem start_calls (f : UpdateFunction) (w : World) (hr : w.u.isRunning = false) :
    (AutoUpdater.start f w).2.calls = w.calls + 1 := by
  unfold AutoUpdater.start
  simp only [hr, invoke, Bool.false_eq_true, if_false]
  by_cases hf : f w.calls = true <;> simp [hf]

theorem start_completion (f : UpdateFunction) (w : World) (hr : w.u.isRunning = false) :
    (AutoUpdater.start f w).1 = (if f w.calls then Completion.threw else Completion.normal) := by
  unfold AutoUpdater.start
  simp only [hr, invoke, Bool.false_eq_true, if_false]
  by_cases hf : f w.calls = true <;> simp [hf]

theorem start_timer (f : UpdateFunction) (w : World) (h : Consistent w)
    (hr : w.u.isRunning = false) (hn : (AutoUpdater.start f w).1 = Completion.normal) :
    (AutoUpdater.start f w).2.host.active.length = 1 ∧
    (AutoUpdater.start f w).2.host.created = w.host.created + 1 ∧
    (AutoUpdater.start f w).2.host.cleared = w.host.cleared := by
  have hid : w.u.intervalId = none := by
    by_contra hc
    have := h.2.2.1 hc
    rw [hr] at this
    exact Bool.noConfusion this
  have hact : w.host.active = [] := by rw [h.1, hid]; rfl
  have hf : f w.calls = false := by
    rw [start_completion f w hr] at hn
    by_cases hf : f w.calls = true
    · simp [hf] at hn
    · simpa using hf
  unfold AutoUpdater.start
  simp [hr, invoke, hf, setInterval, hact]
/-! ### Lemmas on occurrences in rendered markup -/

theorem isPrefixOf_append_decided (pat s b : List Char) (h : decided pat s = true) :
    pat.isPrefixOf (s ++ b) = pat.isPrefixOf s := by
  induction pat generalizing s with
  | nil => simp [List.isPrefixOf]
  | cons p ps ih =>
    cases s with
    | nil => simp [decided] at h
    | cons c cs =>
      simp only [List.cons_append, List.isPrefixOf]
      by_cases hpc : p = c
      · subst hpc
        simp only [decided, beq_self_eq_true, if_true] at h
        simp [ih cs h]
      · have : (p == c) = false := by simpa using hpc
        simp [this]

theorem occurrences_cons (pat : List Char) (c : Char) (t : List Char) :
    occurrences pat (c :: t) =
      (if pat.isPrefixOf (c :: t) then 1 else 0) + occurrences pat t := rfl

theorem occurrences_append (pat k b : List Char) (h : settled pat k = true) :
    occurrences pat (k ++ b) = occurrences pat k + occurrences pat b := by
  induction k with
  | nil => simp [occurrences]
  | cons c t ih =>
    simp only [settled, Bool.and_eq_true] at h
    have h1 := isPrefixOf_append_decided pat (c :: t) b h.1
    rw [List.cons_append] at h1 ⊢
    rw [occurrences_cons, occurrences_cons, h1, ih h.2]
    omega

theorem settled_of_not_mem (p : Char) (ps a : List Char) (h : p ∉ a) :
    settled (p :: ps) a = true ∧ occurrences (p :: ps) a = 0 := by
  induction a with
  | nil => simp [settled, occurrences]
  | cons c t ih =>
    have hc : (p == c) = false := by
      simp only [List.mem_cons, not_or] at h
      simpa using h.1
    have ht : p ∉ t := fun hm => h (List.mem_cons_of_mem _ hm)
    obtain ⟨i1, i2⟩ := ih ht
    simp [settled, decided, occurrences, List.isPrefixOf, hc, i1, i2]

theorem data_join (l : List String) : (String.join l).data = l.flatMap String.data := by
  have gen : ∀ (l : List String) (acc : String),
      (l.foldl (fun r s => r ++ s) acc).data = acc.data ++ l.flatMap String.data := by
    intro l
    induction l with
    | nil => intro acc; simp
    | cons a t ih => intro acc; simp [ih, String.data_append]
  simpa [String.join] using gen l ""

theorem occurrences_render (p : Char) (ps : List Char) (pieces : List Piece)
    (hs : ∀ s ∈ Piece.fixedTexts pieces, settled (p :: ps) s.data = true)
    (hfree : ∀ s ∈ Piece.substTexts pieces, p ∉ s.data) (b : List Char) :
    occurrences (p :: ps) ((Piece.render pieces).data ++ b) =
      ((Piece.fixedTexts pieces).map (fun s => occurrences (p :: ps) s.data)).sum +
        occurrences (p :: ps) b := by
  induction pieces with
  | nil => simp [Piece.render, data_join, Piece.fixedTexts]
  | cons x t ih =>
    have hd : (Piece.render (x :: t)).data = x.text.data ++ (Piece.render t).data := by
      simp [Piece.render, data_join]
    rw [hd, List.append_assoc]
    cases x with
    | fixed s =>
      have ht := ih (fun u hu => hs u (List.mem_cons_of_mem _ hu)) hfree
      have h1 : settled (p :: ps) s.data = true := hs s (List.mem_cons_self _ _)
      rw [show (Piece.fixed s).text = s from rfl, occurrences_append _ _ _ h1, ht]
      simp only [Piece.fixedTexts, List.map_cons, List.sum_cons]
      omega
    | subst s =>
      have ht := ih hs (fun u hu => hfree u (List.mem_cons_of_mem _ hu))
      obtain ⟨i1, i2⟩ :=
        settled_of_not_mem p ps s.data (hfree s (List.mem_cons_self _ _))
      rw [show (Piece.subst s).text = s from rfl, occurrences_append _ _ _ i1, ht, i2]
      simp only [Piece.fixedTexts]
      omega

theorem escapeHTML_markupFree (s : String) : MarkupFree (escapeHTML s) := by
  unfold MarkupFree escapeHTML
  simp only [List.mem_flatMap, not_exists, not_and]
  intro c _ hc
  unfold escapeChar at hc
  split at hc
  · revert hc; decide
  · split at hc
    · revert hc; decide
    · split at hc
      · revert hc; decide
      · split at hc
        · revert hc; decide
        · simp at hc; subst hc; contradiction

/-! ### Lemmas on the renderers -/

theorem typeof_markupFree (v : JSValue) : MarkupFree (JSValue.typeof v) := by
  cases v
  · exact (by decide : '<' ∉ "string".data)
  · exact (by decide : '<' ∉ "number".data)
  · exact (by decide : '<' ∉ "boolean".data)
  · exact (by decide : '<' ∉ "object".data)
  · exact (by decide : '<' ∉ "undefined".data)

theorem lookup_some_mem (l : List (String × String)) (k v : String)
    (hl : l.lookup k = some v) : v ∈ l.map Prod.snd := by
  induction l with
  | nil => simp [List.lookup] at hl
  | cons a t ih =>
    obtain ⟨k1, v1⟩ := a
    simp only [List.lookup] at hl
    cases hk : (k == k1)
    · rw [hk] at hl
      exact List.mem_cons_of_mem _ (ih hl)
    · rw [hk] at hl
      simp only [Option.some.injEq] at hl
      subst hl
      simp

theorem protocolIcon_markupFree (h : Host) (hh : h.MarkupFree) (name : String) :
    MarkupFree (protocolIcon h name) := by
  unfold protocolIcon
  cases hl : PROTOCOL_ICONS.lookup name with
  | some icon =>
    have hall : ∀ s ∈ PROTOCOL_ICONS.map Prod.snd, '<' ∉ s.data := by decide
    exact hall _ (lookup_some_mem _ _ _ hl)
  | none =>
    cases hi : h.inheritedPropertyText name with
    | none => exact (by decide : '<' ∉ "📡".data)
    | some text => exact hh.2 name text hi

theorem escapeHTML_no_gt (s : String) : '>' ∉ (escapeHTML s).data := by
  unfold escapeHTML
  simp only [List.mem_flatMap, not_exists, not_and]
  intro c _ hc
  unfold escapeChar at hc
  split at hc
  · revert hc; decide
  · split at hc
    · revert hc; decide
    · split at hc
      · revert hc; decide
      · split at hc
        · revert hc; decide
        · simp at hc; subst hc; contradiction

theorem tagRow_substitutions (h : Host) (e : String × TagData) :
    Piece.substTexts (tagRowTemplate h e) =
      [escapeHTML e.1, escapeHTML (jsString h e.2.value), JSValue.typeof e.2.value,
       formatTimestamp h e.2.timestamp] := rfl

theorem liveTagRow_substitutions (h : Host) (e : String × TagData) :
    Piece.substTexts (liveTagRowTemplate h e) =
      [escapeHTML e.1, escapeHTML (jsString h e.2.value), formatTimeOnly h e.2.timestamp] :=
  rfl

theorem alarmRow_substitutions (h : Host) (alarm : Alarm) :
    Piece.substTexts (alarmRowTemplate h alarm) =
      [h.toLowerCase alarm.priority, escapeHTML alarm.priority, escapeHTML alarm.rule_name,
       escapeHTML alarm.tag, escapeHTML (jsString h alarm.triggered_value),
       escapeHTML alarm.message, formatTimestamp h alarm.triggered_at] := rfl

theorem publisherCard_substitutions (h : Host) (pub : Publisher) :
    Piece.substTexts (publisherCardTemplate h pub) =
      [protocolIcon h pub.name, escapeHTML pub.name,
       if pub.enabled then "status-active" else "status-inactive",
       if pub.enabled then "ENABLED" else "DISABLED",
       descriptionOrDefault pub.description,
       if pub.enabled then "btn-danger" else "btn-success",
       escapeHTML pub.name,
       if pub.enabled then "⏸️ Disable" else "▶️ Enable"] := rfl

theorem tagRow_rows (h : Host) (hh : h.MarkupFree) (e : String × TagData)
    (b : List Char) :
    occurrences "<tr>".data ((tagRow h e).data ++ b) = 1 + occurrences "<tr>".data b := by
  have hfix : Piece.fixedTexts (tagRowTemplate h e) =
      Piece.fixedTexts (tagRowTemplate Host.sample ("", ⟨JSValue.null, 0⟩)) := rfl
  unfold tagRow
  rw [show "<tr>".data = '<' :: "tr>".data from rfl,
    occurrences_render '<' "tr>".data (tagRowTemplate h e), hfix]
  · exact congrArg (· + _) (by decide! : _ = 1)
  · rw [hfix]; decide!
  · intro s hs
    simp only [tagRowTemplate, Piece.substTexts, List.mem_cons, List.mem_nil_iff,
      or_false] at hs
    rcases hs with hs | hs | hs | hs <;> subst hs
    · exact escapeHTML_markupFree _
    · exact escapeHTML_markupFree _
    · exact typeof_markupFree _
    · exact (hh.1 _).1

theorem liveTagRow_rows (h : Host) (hh : h.MarkupFree) (e : String × TagData)
    (b : List Char) :
    occurrences "<tr>".data ((liveTagRow h e).data ++ b) =
      1 + occurrences "<tr>".data b := by
  have hfix : Piece.fixedTexts (liveTagRowTemplate h e) =
      Piece.fixedTexts (liveTagRowTemplate Host.sample ("", ⟨JSValue.null, 0⟩)) := rfl
  unfold liveTagRow
  rw [show "<tr>".data = '<' :: "tr>".data from rfl,
    occurrences_render '<' "tr>".data (liveTagRowTemplate h e), hfix]
  · exact congrArg (· + _) (by decide! : _ = 1)
  · rw [hfix]; decide!
  · intro s hs
    simp only [liveTagRowTemplate, Piece.substTexts, List.mem_cons, List.mem_nil_iff,
      or_false] at hs
    rcases hs with hs | hs | hs <;> subst hs
    · exact escapeHTML_markupFree _
    · exact escapeHTML_markupFree _
    · exact (hh.1 _).2

theorem alarmRow_rows (h : Host) (hh : h.MarkupFree) (a : Alarm)
    (ha : MarkupFree (h.toLowerCase a.priority)) (b : List Char) :
    occurrences "<tr>".data ((alarmRow h a).data ++ b) = 1 + occurrences "<tr>".data b := by
  have hfix : Piece.fixedTexts (alarmRowTemplate h a) =
      Piece.fixedTexts (alarmRowTemplate Host.sample Alarm.sample) := rfl
  unfold alarmRow
  rw [show "<tr>".data = '<' :: "tr>".data from rfl,
    occurrences_render '<' "tr>".data (alarmRowTemplate h a), hfix]
  · exact congrArg (· + _) (by decide! : _ = 1)
  · rw [hfix]; decide!
  · intro s hs
    simp only [alarmRowTemplate, Piece.substTexts, List.mem_cons, List.mem_nil_iff,
      or_false] at hs
    rcases hs with hs | hs | hs | hs | hs | hs | hs <;> subst hs
    · exact ha
    · exact escapeHTML_markupFree _
    · exact escapeHTML_markupFree _
    · exact escapeHTML_markupFree _
    · exact escapeHTML_markupFree _
    · exact escapeHTML_markupFree _
    · exact (hh.1 _).1

set_option maxRecDepth 100000 in
theorem publisherCard_cards (h : Host) (hh : h.MarkupFree) (pub : Publisher)
    (hd : MarkupFree (descriptionOrDefault pub.description)) (b : List Char) :
    occurrences "<div class=\"publisher-card\">".data ((publisherCard h pub).data ++ b) =
      1 + occurrences "<div class=\"publisher-card\">".data b := by
  have hfix : Piece.fixedTexts (publisherCardTemplate h pub) =
      Piece.fixedTexts (publisherCardTemplate Host.sample ⟨"", false, none⟩) := rfl
  unfold publisherCard
  rw [show "<div class=\"publisher-card\">".data =
      '<' :: "div class=\"publisher-card\">".data from rfl,
    occurrences_render '<' "div class=\"publisher-card\">".data
      (publisherCardTemplate h pub), hfix]
  · exact congrArg (· + _) (by decide! : _ = 1)
  · rw [hfix]; decide!
  · intro s hs
    simp only [publisherCardTemplate, Piece.substTexts, List.mem_cons, List.mem_nil_iff,
      or_false] at hs
    rcases hs with hs | hs | hs | hs | hs | hs | hs | hs <;> subst hs
    · exact protocolIcon_markupFree h hh _
    · exact escapeHTML_markupFree _
    · cases pub.enabled
      · exact (by decide : '<' ∉ "status-inactive".data)
      · exact (by decide : '<' ∉ "status-active".data)
    · cases pub.enabled
      · exact (by decide : '<' ∉ "DISABLED".data)
      · exact (by decide : '<' ∉ "ENABLED".data)
    · exact hd
    · cases pub.enabled
      · exact (by decide : '<' ∉ "btn-success".data)
      · exact (by decide : '<' ∉ "btn-danger".data)
    · exact escapeHTML_markupFree _
    · cases pub.enabled
      · exact (by decide : '<' ∉ "▶️ Enable".data)
      · exact (by decide : '<' ∉ "⏸️ Disable".data)

theorem occurrences_join_map {α : Type} (pat : List Char) (row : α → String)
    (es : List α)
    (hrow : ∀ e ∈ es, ∀ b, occurrences pat ((row e).data ++ b) = 1 + occurrences pat b)
    (b : List Char) :
    occurrences pat ((String.join (es.map row)).data ++ b) =
      es.length + occurrences pat b := by
  induction es with
  | nil => simp [data_join]
  | cons e t ih =>
    have ht := ih (fun x hx => hrow x (List.mem_cons_of_mem _ hx))
    have hd : (String.join ((e :: t).map row)).data =
        (row e).data ++ (String.join (t.map row)).data := by
      simp [data_join]
    rw [hd, List.append_assoc, hrow e (List.mem_cons_self _ _), ht, List.length_cons]
    omega

theorem alarmsTable_split (h : Host) (alarms : List Alarm) :
    Piece.render (alarmsTableTemplate h alarms) =
      alarmsTableHead ++ String.join (alarms.map (alarmRow h)) ++ alarmsTableTail := by
  apply String.ext
  simp only [alarmsTableHead, alarmsTableTail, alarmsTableTemplate, Piece.render, data_join,
    String.data_append, Piece.text, List.take, List.drop, List.map, List.flatMap_cons,
    List.flatMap_nil, List.append_assoc, List.append_nil]

theorem sample_markupFree : Host.sample.MarkupFree := by
  refine ⟨fun ms => ⟨(by decide : '<' ∉ "11/14/2023, 10:13:20 PM".data),
    (by decide : '<' ∉ "10:13:20 PM".data)⟩, ?_⟩
  intro name text ht
  simp only [Host.sample] at ht
  split at ht
  · cases ht; decide
  · split at ht
    · cases ht; decide
    · cases ht

theorem countRows_join_tagRow (h : Host) (hh : h.MarkupFree)
    (es : List (String × TagData)) :
    countRows (String.join (es.map (tagRow h))) = es.length := by
  have := occurrences_join_map "<tr>".data (tagRow h) es
    (fun e _ b => tagRow_rows h hh e b) []
  simpa [countRows, occurrences] using this

theorem countRows_join_liveTagRow (h : Host) (hh : h.MarkupFree)
    (es : List (String × TagData)) :
    countRows (String.join (es.map (liveTagRow h))) = es.length := by
  have := occurrences_join_map "<tr>".data (liveTagRow h) es
    (fun e _ b => liveTagRow_rows h hh e b) []
  simpa [countRows, occurrences] using this

theorem countRows_join_alarmRow (h : Host) (hh : h.MarkupFree) (alarms : List Alarm)
    (hp : ∀ a ∈ alarms, MarkupFree (h.toLowerCase a.priority)) :
    countRows (String.join (alarms.map (alarmRow h))) = alarms.length := by
  have := occurrences_join_map "<tr>".data (alarmRow h) alarms
    (fun a ha b => alarmRow_rows h hh a (hp a ha) b) []
  simpa [countRows, occurrences] using this

theorem countCards_join_publisherCard (h : Host) (hh : h.MarkupFree)
    (pubs : List Publisher)
    (hp : ∀ p ∈ pubs, MarkupFree (descriptionOrDefault p.description)) :
    countCards (String.join (pubs.map (publisherCard h))) = pubs.length := by
  have := occurrences_join_map "<div class=\"publisher-card\">".data (publisherCard h) pubs
    (fun p hpm b => publisherCard_cards h hh p (hp p hpm) b) []
  simpa [countCards, occurrences] using this

/-! ### Lemmas on the execution of the update functions -/

theorem updateTagsView_exec (h : Host) (api : Api) (p : Page) :
    (updateTagsView h api).exec p =
      match api.tags with
      | Except.ok tagsData =>
        (Except.ok (),
         { display := renderTagsTable h tagsData p.display,
           trace := p.trace ++ [Effect.request "getTags" none] })
      | Except.error e =>
        (Except.ok (),
         { display := p.display,
           trace := p.trace ++ [Effect.request "getTags" none] ++
             [Effect.consoleError "Tags update error:" e] }) := by
  unfold updateTagsView JS.exec Api.getTags
  cases ht : api.tags <;> rfl

theorem updateAlarmsView_exec (h : Host) (api : Api) (p : Page) :
    (updateAlarmsView h api).exec p =
      match api.activeAlarms with
      | Except.ok alarmsData =>
        (Except.ok (),
         { display := renderAlarmsView h alarmsData p.display,
           trace := p.trace ++ [Effect.request "getActiveAlarms" none] })
      | Except.error e =>
        (Except.ok (),
         { display := p.display,
           trace := p.trace ++ [Effect.request "getActiveAlarms" none] ++
             [Effect.consoleError "Alarms update error:" e] }) := by
  unfold updateAlarmsView JS.exec Api.getActiveAlarms
  cases ht : api.activeAlarms <;> rfl

theorem updatePublishersView_exec (h : Host) (api : Api) (p : Page) :
    (updatePublishersView h api).exec p =
      match api.publishers with
      | Except.ok publishersData =>
        (Except.ok (),
         { display := renderPublishersGrid h publishersData p.display,
           trace := p.trace ++ [Effect.request "getPublishers" none] })
      | Except.error e =>
        (Except.ok (),
         { display := p.display,
           trace := p.trace ++ [Effect.request "getPublishers" none] ++
             [Effect.consoleError "Publishers update error:" e] }) := by
  unfold updatePublishersView JS.exec Api.getPublishers
  cases ht : api.publishers <;> rfl

theorem updateDashboard_exec (h : Host) (api : Api) (p : Page) :
    (updateDashboard h api).exec p =
      match promiseAll3 api.tags api.publishers api.activeAlarms with
      | Except.ok (tagsData, publishersData, alarmsData) =>
        (Except.ok (),
         { display := updateLiveTagsTable h tagsData
             (updateMetricCards tagsData publishersData alarmsData p.display),
           trace := p.trace ++ [Effect.request "getTags" none] ++
             [Effect.request "getPublishers" none] ++
             [Effect.request "getActiveAlarms" none] })
      | Except.error e =>
        (Except.ok (),
         { display := p.display,
           trace := p.trace ++ [Effect.request "getTags" none] ++
             [Effect.request "getPublishers" none] ++
             [Effect.request "getActiveAlarms" none] ++
             [Effect.consoleError "Dashboard update error:" e] }) := by
  unfold updateDashboard JS.exec Api.getTags Api.getPublishers Api.getActiveAlarms
  cases ht : api.tags <;> cases hp : api.publishers <;> cases ha : api.activeAlarms <;> rfl

theorem promiseAll3_rejected {α β γ : Type} (a : Promise α) (b : Promise β) (c : Promise γ)
    (h : (∃ e, a = Except.error e) ∨ (∃ e, b = Except.error e) ∨ (∃ e, c = Except.error e)) :
    ∃ e, promiseAll3 a b c = Except.error e := by
  cases a <;> cases b <;> cases c <;> simp [promiseAll3] at h ⊢

theorem togglePublisher_exec (h : Host) (api : Api) (publisherName : String) (p : Page) :
    (togglePublisher h api publisherName).exec p =
      match api.toggle publisherName with
      | Except.ok result =>
        (updatePublishersView h api).exec
          { display := p.display,
            trace := p.trace ++ [Effect.request "togglePublisher" (some publisherName)] ++
              [Effect.consoleLog "Toggle result:" result] }
      | Except.error e =>
        (Except.ok (),
         { display := p.display,
           trace := p.trace ++ [Effect.request "togglePublisher" (some publisherName)] ++
             [Effect.consoleError "Toggle publisher error:" e] ++
             [Effect.alert ("Failed to toggle publisher: " ++ e.message)] }) := by
  unfold togglePublisher updatePublishersView JS.exec Api.togglePublisher Api.getPublishers
  cases ht : api.toggle publisherName <;> cases hp : api.publishers <;> rfl

/-! ## The claims about the scheduler -/

/-- C2: after every finite sequence of `start()`, `stop()` and `restart()`
calls on an `AutoUpdater` (with any number of timer periods elapsing in
between, and whatever the update function does), at most one recurring timer
created by that instance is active: the timers created minus the timers
cleared are the active ones, and there are 0 or 1 of them. -/
theorem C2_at_most_one_timer (f : UpdateFunction) (interval : Nat) (evs : List Event) :
    (reached f interval evs).host.active.length ≤ 1 ∧
    (reached f interval evs).host.created =
      (reached f interval evs).host.cleared + (reached f interval evs).host.active.length ∧
    (reached f interval evs).host.created - (reached f interval evs).host.cleared =
      (reached f interval evs).host.active.length := by
  have hc := consistent_reached f interval evs
  refine ⟨active_length_le_one _ hc, hc.2.2.2, ?_⟩
  have := hc.2.2.2
  omega

/-- C3: in every state an `AutoUpdater` can reach, `stop()` leaves no active
timer, so that no later period invokes the update function; it sets
`isRunning` to false and `intervalId` to null; a second `stop()` changes
nothing; and on an instance that is not running (never started or already
stopped) `stop()` returns the same state, clearing nothing. -/
theorem C3_stop_cancels (f : UpdateFunction) (interval : Nat) (evs : List Event) (n : Nat) :
    (AutoUpdater.stop (reached f interval evs)).host.active = [] ∧
    (AutoUpdater.stop (reached f interval evs)).u.isRunning = false ∧
    (AutoUpdater.stop (reached f interval evs)).u.intervalId = none ∧
    (ticks f n (AutoUpdater.stop (reached f interval evs))).calls =
      (AutoUpdater.stop (reached f interval evs)).calls ∧
    AutoUpdater.stop (AutoUpdater.stop (reached f interval evs)) =
      AutoUpdater.stop (reached f interval evs) ∧
    AutoUpdater.stop (AutoUpdater.new interval) = AutoUpdater.new interval ∧
    ((reached f interval evs).u.isRunning = false →
      AutoUpdater.stop (reached f interval evs) = reached f interval evs) := by
  have hc := consistent_reached f interval evs
  obtain ⟨h1, h2, h3⟩ := stop_spec _ hc
  refine ⟨h1, h2, h3, ?_, ?_, ?_, ?_⟩
  · rw [ticks_calls, h1]; simp
  · exact stop_of_stopped _ (consistent_stop _ hc) h2
  · exact stop_of_stopped _ (consistent_new interval) rfl
  · exact stop_of_stopped _ hc

/-- Instance of C3: after `start()`, two periods and `stop()`, the instance is
stopped, and a not-running instance is left as it is by `stop()`. -/
theorem C3_stop_cancels_witness :
    (reached (fun _ => false) 2000 [Event.start, Event.tick, Event.tick, Event.stop]).u.isRunning
      = false ∧
    AutoUpdater.stop
        (reached (fun _ => false) 2000 [Event.start, Event.tick, Event.tick, Event.stop]) =
      reached (fun _ => false) 2000 [Event.start, Event.tick, Event.tick, Event.stop] :=
  ⟨by decide,
   (C3_stop_cancels (fun _ => false) 2000
      [Event.start, Event.tick, Event.tick, Event.stop] 5).2.2.2.2.2.2 (by decide)⟩

/-- C4, as amended: `start()` is idempotent. On an instance that is running,
`start()` returns without invoking anything and changes no field. On an
instance that is not running, `start(); start()` ends in the same state and
the same way as a single `start()`, the second call changes nothing, and the
update function is invoked exactly once; when that immediate invocation
returns without throwing, the sequence completes with exactly one recurring
timer, the only one created. -/
theorem C4_start_idempotent (f : UpdateFunction) (interval : Nat) (evs : List Event) :
    ((reached f interval evs).u.isRunning = true →
      AutoUpdater.start f (reached f interval evs) =
        (Completion.normal, reached f interval evs)) ∧
    ((reached f interval evs).u.isRunning = false →
      startTwice f (reached f interval evs) = AutoUpdater.start f (reached f interval evs) ∧
      AutoUpdater.start f (AutoUpdater.start f (reached f interval evs)).2 =
        (Completion.normal, (AutoUpdater.start f (reached f interval evs)).2) ∧
      (startTwice f (reached f interval evs)).2.calls = (reached f interval evs).calls + 1 ∧
      (f (reached f interval evs).calls = false →
        (startTwice f (reached f interval evs)).1 = Completion.normal ∧
        (startTwice f (reached f interval evs)).2.host.active.length = 1 ∧
        (startTwice f (reached f interval evs)).2.host.created =
          (reached f interval evs).host.created + 1)) := by
  have hc := consistent_reached f interval evs
  refine ⟨start_of_running f _, ?_⟩
  intro hr
  have h2 := start_of_running f _ (start_isRunning f (reached f interval evs))
  have htw : startTwice f (reached f interval evs) =
      AutoUpdater.start f (reached f interval evs) := by
    unfold startTwice
    cases hs : AutoUpdater.start f (reached f interval evs) with
    | mk c w1 =>
      rw [hs] at h2
      cases c with
      | normal => simpa using h2
      | threw => rfl
  refine ⟨htw, h2, ?_, ?_⟩
  · rw [htw]; exact start_calls f _ hr
  · rw [htw]
    intro hret
    have hn : (AutoUpdater.start f (reached f interval evs)).1 = Completion.normal := by
      rw [start_completion f _ hr, hret]; rfl
    exact ⟨hn, (start_timer f _ hc hr hn).1, (start_timer f _ hc hr hn).2.1⟩

/-- Instance of C4 as amended: on a fresh instance whose update function
returns, `start(); start()` completes with one invocation and one timer; and
on the running instance so obtained a further `start()` changes nothing. -/
theorem C4_start_idempotent_witness :
    (reached (fun _ => false) 2000 []).u.isRunning = false ∧
    (startTwice (fun _ => false) (reached (fun _ => false) 2000 [])).1 = Completion.normal ∧
    (startTwice (fun _ => false) (reached (fun _ => false) 2000 [])).2.calls = 1 ∧
    (startTwice (fun _ => false) (reached (fun _ => false) 2000 [])).2.host.active.length = 1 ∧
    AutoUpdater.start (fun _ => false) (reached (fun _ => false) 2000 [Event.start]) =
      (Completion.normal, reached (fun _ => false) 2000 [Event.start]) :=
  ⟨by decide,
   (((C4_start_idempotent (fun _ => false) 2000 []).2 (by decide)).2.2.2 (by decide)).1,
   ((C4_start_idempotent (fun _ => false) 2000 []).2 (by decide)).2.2.1,
   (((C4_start_idempotent (fun _ => false) 2000 []).2 (by decide)).2.2.2 (by decide)).2.1,
   (C4_start_idempotent (fun _ => false) 2000 [Event.start]).1 (by decide)⟩

/-- C4, counterexample to the claim as stated: on a fresh, not-running
instance whose update function throws on its immediate invocation, `start()`
followed by `start()` (the owner carrying on after the exception) invokes the
update function once and leaves no recurring timer, none having been
created. -/
theorem C4_counterexample_no_timer :
    (AutoUpdater.new 2000).u.isRunning = false ∧
    (reached alwaysThrows 2000 [Event.start, Event.start]).calls = 1 ∧
    (reached alwaysThrows 2000 [Event.start, Event.start]).host.active.length = 0 ∧
    (reached alwaysThrows 2000 [Event.start, Event.start]).host.created = 0 ∧
    startTwice alwaysThrows (AutoUpdater.new 2000) =
      AutoUpdater.start alwaysThrows (AutoUpdater.new 2000) ∧
    (startTwice alwaysThrows (AutoUpdater.new 2000)).2.host.active.length = 0 := by
  decide

/-- C5, as amended: when the immediate invocation made inside `start()`
returns without throwing (a promise it returns may still reject), `start()` on
a not-running instance completes with exactly one recurring timer, and each of
the next `n` periods invokes the update function once and leaves the timer
active, whether or not those invocations throw; after a following `stop()` no
further period invokes it. -/
theorem C5_cadence_survives_throwing_ticks (f : UpdateFunction) (interval : Nat)
    (evs : List Event) (n m : Nat)
    (hr : (reached f interval evs).u.isRunning = false)
    (hret : f (reached f interval evs).calls = false) :
    (AutoUpdater.start f (reached f interval evs)).1 = Completion.normal ∧
    (AutoUpdater.start f (reached f interval evs)).2.host.active.length = 1 ∧
    (ticks f n (AutoUpdater.start f (reached f interval evs)).2).host.active =
      (AutoUpdater.start f (reached f interval evs)).2.host.active ∧
    (ticks f n (AutoUpdater.start f (reached f interval evs)).2).calls =
      (AutoUpdater.start f (reached f interval evs)).2.calls + n ∧
    (ticks f m (AutoUpdater.stop
        (ticks f n (AutoUpdater.start f (reached f interval evs)).2))).calls =
      (AutoUpdater.start f (reached f interval evs)).2.calls + n := by
  have hc := consistent_reached f interval evs
  have hn : (AutoUpdater.start f (reached f interval evs)).1 = Completion.normal := by
    rw [start_completion f _ hr, hret]; rfl
  have ht := (start_timer f _ hc hr hn).1
  have hcalls : (ticks f n (AutoUpdater.start f (reached f interval evs)).2).calls =
      (AutoUpdater.start f (reached f interval evs)).2.calls + n := by
    rw [ticks_calls, ht, Nat.mul_one]
  refine ⟨hn, ht, ticks_host f n _ |> congrArg TimerHost.active, hcalls, ?_⟩
  have hcs : Consistent (ticks f n (AutoUpdater.start f (reached f interval evs)).2) := by
    unfold Consistent
    rw [ticks_host, ticks_u]
    exact consistent_start f _ hc
  rw [ticks_calls, (stop_spec _ hcs).1]
  simp only [List.length_nil, Nat.mul_zero, Nat.add_zero]
  have : (AutoUpdater.stop (ticks f n (AutoUpdater.start f (reached f interval evs)).2)).calls
      = (ticks f n (AutoUpdater.start f (reached f interval evs)).2).calls := by
    unfold AutoUpdater.stop
    split <;> [split; skip] <;> rfl
  rw [this, hcalls]

/-- Instance of C5 as amended: the update function returns from the immediate
invocation and throws on every tick; three periods still invoke it three
times, and two more periods after `stop()` invoke nothing. -/
theorem C5_cadence_survives_throwing_ticks_witness :
    (reached throwsOnTicks 2000 []).u.isRunning = false ∧
    throwsOnTicks (reached throwsOnTicks 2000 []).calls = false ∧
    (ticks throwsOnTicks 3 (AutoUpdater.start throwsOnTicks (reached throwsOnTicks 2000 [])).2).calls
      = (AutoUpdater.start throwsOnTicks (reached throwsOnTicks 2000 [])).2.calls + 3 ∧
    (ticks throwsOnTicks 3
      (AutoUpdater.start throwsOnTicks (reached throwsOnTicks 2000 [])).2).reported = 3 ∧
    (ticks throwsOnTicks 2 (AutoUpdater.stop (ticks throwsOnTicks 3
      (AutoUpdater.start throwsOnTicks (reached throwsOnTicks 2000 [])).2))).calls
      = (AutoUpdater.start throwsOnTicks (reached throwsOnTicks 2000 [])).2.calls + 3 :=
  ⟨by decide, by decide,
   (C5_cadence_survives_throwing_ticks throwsOnTicks 2000 [] 3 2 (by decide) (by decide)).2.2.2.1,
   by decide,
   (C5_cadence_survives_throwing_ticks throwsOnTicks 2000 [] 3 2 (by decide) (by decide)).2.2.2.2⟩

/-- C5, counterexample to the claim as stated: with an update function that
throws on its immediate invocation, `start()` on a fresh instance ends by that
exception with `isRunning` set and no timer created; three periods later the
update function has still been invoked only that once, and a second `start()`
creates no timer either. -/
theorem C5_counterexample_throw_in_start :
    (AutoUpdater.start alwaysThrows (AutoUpdater.new 2000)).1 = Completion.threw ∧
    (AutoUpdater.start alwaysThrows (AutoUpdater.new 2000)).2.host.active = [] ∧
    (AutoUpdater.start alwaysThrows (AutoUpdater.new 2000)).2.host.created = 0 ∧
    (AutoUpdater.start alwaysThrows (AutoUpdater.new 2000)).2.u.isRunning = true ∧
    (ticks alwaysThrows 3 (AutoUpdater.start alwaysThrows (AutoUpdater.new 2000)).2).calls = 1 ∧
    (AutoUpdater.start alwaysThrows
      (AutoUpdater.start alwaysThrows (AutoUpdater.new 2000)).2).2.host.active = [] := by
  decide

/-! ## The claims about the view synchronizers and the toggle handler -/

/-- C1: for each of `updateDashboard`, `updateTagsView`, `updateAlarmsView` and
`updatePublishersView` and every page, when a read the update issues is
rejected the update completes without an error and the display afterwards is
the display before. For `updateDashboard` one rejected read among the three
suffices, whatever the other two return. -/
theorem C1_rejected_read_keeps_display (h : Host) (api : Api) (p : Page) :
    (((∃ e, api.tags = Except.error e) ∨ (∃ e, api.publishers = Except.error e) ∨
        (∃ e, api.activeAlarms = Except.error e)) →
      ((updateDashboard h api).exec p).1 = Except.ok () ∧
      ((updateDashboard h api).exec p).2.display = p.display) ∧
    ((∃ e, api.tags = Except.error e) →
      ((updateTagsView h api).exec p).1 = Except.ok () ∧
      ((updateTagsView h api).exec p).2.display = p.display) ∧
    ((∃ e, api.activeAlarms = Except.error e) →
      ((updateAlarmsView h api).exec p).1 = Except.ok () ∧
      ((updateAlarmsView h api).exec p).2.display = p.display) ∧
    ((∃ e, api.publishers = Except.error e) →
      ((updatePublishersView h api).exec p).1 = Except.ok () ∧
      ((updatePublishersView h api).exec p).2.display = p.display) := by
  refine ⟨?_, ?_, ?_, ?_⟩
  · intro hrej
    obtain ⟨e, he⟩ := promiseAll3_rejected api.tags api.publishers api.activeAlarms hrej
    rw [updateDashboard_exec, he]
    exact ⟨rfl, rfl⟩
  · rintro ⟨e, he⟩
    rw [updateTagsView_exec, he]
    exact ⟨rfl, rfl⟩
  · rintro ⟨e, he⟩
    rw [updateAlarmsView_exec, he]
    exact ⟨rfl, rfl⟩
  · rintro ⟨e, he⟩
    rw [updatePublishersView_exec, he]
    exact ⟨rfl, rfl⟩

/-- Instance of C1: with the publishers read rejected and the other two reads
fulfilled, a dashboard tick leaves the sample display as it was, although the
same tick with all three reads fulfilled rewrites it; and with every read
rejected the three other views keep their content. -/
theorem C1_rejected_read_keeps_display_witness :
    ((updateDashboard Host.sample Api.publishersDown).exec Page.sample).2.display =
      Display.sample ∧
    ((updateDashboard Host.sample Api.sample).exec Page.sample).2.display ≠ Display.sample ∧
    ((updateTagsView Host.sample Api.down).exec Page.sample).2.display = Display.sample ∧
    ((updateAlarmsView Host.sample Api.down).exec Page.sample).2.display = Display.sample ∧
    ((updatePublishersView Host.sample Api.down).exec Page.sample).2.display = Display.sample :=
  ⟨((C1_rejected_read_keeps_display Host.sample Api.publishersDown Page.sample).1
      (Or.inr (Or.inl ⟨_, rfl⟩))).2,
   by decide,
   ((C1_rejected_read_keeps_display Host.sample Api.down Page.sample).2.1 ⟨_, rfl⟩).2,
   ((C1_rejected_read_keeps_display Host.sample Api.down Page.sample).2.2.1 ⟨_, rfl⟩).2,
   ((C1_rejected_read_keeps_display Host.sample Api.down Page.sample).2.2.2 ⟨_, rfl⟩).2⟩

/-- C9: `togglePublisher(name)` never ends by an error and issues exactly one
write, `api.togglePublisher` with that name, as its first effect. When the
write is fulfilled, what follows is exactly one run of `updatePublishersView`
(one `getPublishers` read) and no alert. When the write is rejected, there is
no read, no further write, exactly one alert, whose text ends with the
failure's message, and the display is unchanged. -/
theorem C9_togglePublisher (h : Host) (api : Api) (publisherName : String) (p : Page) :
    ((togglePublisher h api publisherName).exec p).1 = Except.ok () ∧
    (∃ rest, ((togglePublisher h api publisherName).exec p).2.trace =
        p.trace ++ Effect.request "togglePublisher" (some publisherName) :: rest ∧
      toggleRequests rest = []) ∧
    (∀ result, api.toggle publisherName = Except.ok result →
      (togglePublisher h api publisherName).exec p =
        (updatePublishersView h api).exec
          { display := p.display,
            trace := p.trace ++ [Effect.request "togglePublisher" (some publisherName)] ++
              [Effect.consoleLog "Toggle result:" result] } ∧
      ∃ rest, ((togglePublisher h api publisherName).exec p).2.trace =
          p.trace ++ Effect.request "togglePublisher" (some publisherName) :: rest ∧
        publisherReads rest = 1 ∧ alertTexts rest = []) ∧
    (∀ e, api.toggle publisherName = Except.error e →
      ((togglePublisher h api publisherName).exec p).2.display = p.display ∧
      ∃ rest, ((togglePublisher h api publisherName).exec p).2.trace =
          p.trace ++ Effect.request "togglePublisher" (some publisherName) :: rest ∧
        publisherReads rest = 0 ∧ toggleRequests rest = [] ∧
        alertTexts rest = ["Failed to toggle publisher: " ++ e.message]) := by
  rw [togglePublisher_exec]
  cases ht : api.toggle publisherName with
  | error e =>
    refine ⟨rfl,
      ⟨[Effect.consoleError "Toggle publisher error:" e,
        Effect.alert ("Failed to toggle publisher: " ++ e.message)],
       by simp [List.append_assoc], by simp [toggleRequests]⟩, ?_, ?_⟩
    · intro result hres; cases hres
    · intro e1 he1
      cases he1
      exact ⟨rfl,
        [Effect.consoleError "Toggle publisher error:" e,
         Effect.alert ("Failed to toggle publisher: " ++ e.message)],
        by simp [List.append_assoc],
        by simp [publisherReads], by simp [toggleRequests], by simp [alertTexts]⟩
  | ok result =>
    simp only [updatePublishersView_exec]
    cases hp : api.publishers with
    | error e =>
      refine ⟨rfl,
        ⟨[Effect.consoleLog "Toggle result:" result, Effect.request "getPublishers" none,
          Effect.consoleError "Publishers update error:" e],
         by simp [List.append_assoc], by simp [toggleRequests]⟩, ?_, ?_⟩
      · intro r1 hr1
        cases hr1
        exact ⟨rfl,
          [Effect.consoleLog "Toggle result:" result, Effect.request "getPublishers" none,
           Effect.consoleError "Publishers update error:" e],
          by simp [List.append_assoc], by simp [publisherReads], by simp [alertTexts]⟩
      · intro e1 he1; cases he1
    | ok publishersData =>
      refine ⟨rfl,
        ⟨[Effect.consoleLog "Toggle result:" result, Effect.request "getPublishers" none],
         by simp [List.append_assoc], by simp [toggleRequests]⟩, ?_, ?_⟩
      · intro r1 hr1
        cases hr1
        exact ⟨rfl,
          [Effect.consoleLog "Toggle result:" result, Effect.request "getPublishers" none],
          by simp [List.append_assoc], by simp [publisherReads], by simp [alertTexts]⟩
      · intro e1 he1; cases he1

/-- Instance of C9: toggling `MQTT` on the sample client issues the write for
`MQTT` and then one `getPublishers` read, which redraws the grid; on the client
that is down it raises the one alert and leaves the display alone. -/
theorem C9_togglePublisher_witness :
    ((togglePublisher Host.sample Api.sample "MQTT").exec Page.sample).2.trace =
      [Effect.request "togglePublisher" (some "MQTT"), Effect.consoleLog "Toggle result:" "ok",
       Effect.request "getPublishers" none] ∧
    ((togglePublisher Host.sample Api.sample "MQTT").exec Page.sample).2.display.publishersGrid ≠ "old" ∧
    ((togglePublisher Host.sample Api.down "MQTT").exec Page.sample).2.display = Display.sample ∧
    (∃ rest, ((togglePublisher Host.sample Api.down "MQTT").exec Page.sample).2.trace =
        Page.sample.trace ++ Effect.request "togglePublisher" (some "MQTT") :: rest ∧
      publisherReads rest = 0 ∧ toggleRequests rest = [] ∧
      alertTexts rest = ["Failed to toggle publisher: " ++ "Publisher not found"]) :=
  ⟨by decide, by decide,
   ((C9_togglePublisher Host.sample Api.down "MQTT" Page.sample).2.2.2 ⟨"Publisher not found"⟩ rfl).1,
   ((C9_togglePublisher Host.sample Api.down "MQTT" Page.sample).2.2.2 ⟨"Publisher not found"⟩ rfl).2⟩

/-- C10: `updateMetricCards` shows as alarm count the number of alarms in the
list, and colours it error red exactly when at least one alarm has the
priority `CRITICAL`, success green otherwise. Two CRITICAL alarms and one
WARNING alarm give the count 3 in red; a list without CRITICAL alarm gives
green. -/
theorem C10_alarm_count_metric (tagsData : TagsData) (publishersData : PublishersData)
    (alarmsData : AlarmsData) (d : Display) :
    (updateMetricCards tagsData publishersData alarmsData d).alarmsCount =
      toString (alarmsData.alarms.getD []).length ∧
    ((updateMetricCards tagsData publishersData alarmsData d).alarmsCountColor =
        "var(--error-red)" ↔
      0 < ((alarmsData.alarms.getD []).filter (fun a => a.priority == "CRITICAL")).length) ∧
    ((updateMetricCards tagsData publishersData alarmsData d).alarmsCountColor =
        "var(--success-green)" ↔
      ((alarmsData.alarms.getD []).filter (fun a => a.priority == "CRITICAL")).length = 0) ∧
    (updateMetricCards TagsData.sample PublishersData.sample AlarmsData.sample
        Display.sample).alarmsCount = "3" ∧
    (updateMetricCards TagsData.sample PublishersData.sample AlarmsData.sample
        Display.sample).alarmsCountColor = "var(--error-red)" ∧
    (updateMetricCards TagsData.sample PublishersData.sample
        { alarms := some [{ Alarm.sample with priority := "WARNING" },
                          { Alarm.sample with priority := "critical" }] }
        Display.sample).alarmsCountColor = "var(--success-green)" := by
  refine ⟨rfl, ?_, ?_, by decide, by decide, by decide⟩
  · simp only [updateMetricCards]
    by_cases hc :
        ((alarmsData.alarms.getD []).filter (fun a => a.priority == "CRITICAL")).length > 0
    · rw [if_pos hc]; exact ⟨fun _ => hc, fun _ => rfl⟩
    · rw [if_neg hc]; exact ⟨fun hh => absurd hh (by decide), fun hh => absurd hh hc⟩
  · simp only [updateMetricCards]
    by_cases hc :
        ((alarmsData.alarms.getD []).filter (fun a => a.priority == "CRITICAL")).length > 0
    · rw [if_pos hc]
      exact ⟨fun hh => absurd hh (by decide), fun hh => absurd hh (by omega)⟩
    · rw [if_neg hc]; exact ⟨fun _ => by omega, fun _ => rfl⟩

/-! ## The claims about the renderers -/

/-- C6, the code at the failing input: a publisher description holding
`<script>` reaches the grid markup as it is, where `escapeHTML` of the same
text holds no `<script>`; it is the text of a substitution of the card
template that is not an `escapeHTML` result. Likewise an alarm priority holding
markup reaches the class attribute of its badge unescaped. -/
theorem C6_description_reaches_markup_unescaped :
    occurrences "<script>".data
      (renderPublishersGrid Host.sample PublishersData.withMarkup Display.sample).publishersGrid.data = 1 ∧
    occurrences "<script>".data (escapeHTML "<script>alert(1)</script>").data = 0 ∧
    "<script>alert(1)</script>" ∈ Piece.substTexts
      (publisherCardTemplate Host.sample
        { name := "MQTT", enabled := true, description := some "<script>alert(1)</script>" }) ∧
    occurrences "<script>".data
      (renderAlarmsView Host.sample { alarms := some [Alarm.withMarkup] }
        Display.sample).alarmsContainer.data = 1 := by
  decide!

/-- C7, counterexample to the claim as stated: a tags payload with N = 0
entries makes `renderTagsTable` and `updateLiveTagsTable` each emit one table
row, the placeholder `No tags available`. -/
theorem C7_counterexample_placeholder_row :
    (TagsData.empty.tags.getD []).length = 0 ∧
    (renderTagsTable Host.sample TagsData.empty Display.sample).tagsTable =
      "<tr><td colspan=\"5\" class=\"loading\">No tags available</td></tr>" ∧
    countRows (renderTagsTable Host.sample TagsData.empty Display.sample).tagsTable = 1 ∧
    countRows (updateLiveTagsTable Host.sample TagsData.empty Display.sample).liveTagsTable
      = 1 := by
  decide!

/-- C7, as amended: for a payload with N ≥ 1 entries the rendered content is
the concatenation of the rows or cards of the entries in their order
(`renderTagsTable`: the N rows of all entries; `updateLiveTagsTable`: the
min(N, 10) rows of the first entries; `renderPublishersGrid`: N cards;
`renderAlarmsView`: N rows between the fixed head and tail of the table).
Counted in the markup, the tag tables hold exactly N and min(N, 10) rows, the
grid N publisher cards when no description shown holds `<`, and the alarms
body N rows when no lower-cased priority holds `<`. For N = 0 no row or card
of an entry is emitted: each renderer writes its fixed empty-state content,
which for the two tag tables is one placeholder row. -/
theorem C7_rows_follow_entries (h : Host) (hh : h.MarkupFree) (tagsData : TagsData)
    (publishersData : PublishersData) (alarmsData : AlarmsData) (d : Display) :
    (tagsData.tags.getD [] ≠ [] →
      (renderTagsTable h tagsData d).tagsTable =
        String.join ((tagsData.tags.getD []).map (tagRow h)) ∧
      countRows (renderTagsTable h tagsData d).tagsTable = (tagsData.tags.getD []).length) ∧
    (tagsData.tags.getD [] = [] →
      (renderTagsTable h tagsData d).tagsTable =
        "<tr><td colspan=\"5\" class=\"loading\">No tags available</td></tr>") ∧
    (tagsData.tags.getD [] ≠ [] →
      (updateLiveTagsTable h tagsData d).liveTagsTable =
        String.join (((tagsData.tags.getD []).take 10).map (liveTagRow h)) ∧
      countRows (updateLiveTagsTable h tagsData d).liveTagsTable =
        min (tagsData.tags.getD []).length 10) ∧
    (tagsData.tags.getD [] = [] →
      (updateLiveTagsTable h tagsData d).liveTagsTable =
        "<tr><td colspan=\"4\" class=\"loading\">No tags available</td></tr>") ∧
    (publishersData.publishers.getD [] ≠ [] →
      (renderPublishersGrid h publishersData d).publishersGrid =
        String.join ((publishersData.publishers.getD []).map (publisherCard h)) ∧
      ((∀ p ∈ publishersData.publishers.getD [],
          MarkupFree (descriptionOrDefault p.description)) →
        countCards (renderPublishersGrid h publishersData d).publishersGrid =
          (publishersData.publishers.getD []).length)) ∧
    (publishersData.publishers.getD [] = [] →
      (renderPublishersGrid h publishersData d).publishersGrid =
        "<div class=\"card\"><p style=\"text-align: center; color: var(--smoke-gray);\">No publishers configured</p></div>" ∧
      countCards (renderPublishersGrid h publishersData d).publishersGrid = 0) ∧
    (alarmsData.alarms.getD [] ≠ [] →
      (renderAlarmsView h alarmsData d).alarmsContainer =
        alarmsTableHead ++ String.join ((alarmsData.alarms.getD []).map (alarmRow h)) ++
          alarmsTableTail ∧
      ((∀ a ∈ alarmsData.alarms.getD [], MarkupFree (h.toLowerCase a.priority)) →
        countRows (String.join ((alarmsData.alarms.getD []).map (alarmRow h))) =
          (alarmsData.alarms.getD []).length)) ∧
    (alarmsData.alarms.getD [] = [] →
      (renderAlarmsView h alarmsData d).alarmsContainer = alarmsEmptyState ∧
      countRows (renderAlarmsView h alarmsData d).alarmsContainer = 0) := by
  refine ⟨?_, ?_, ?_, ?_, ?_, ?_, ?_, ?_⟩
  · intro hne
    have hlen : ¬ (tagsData.tags.getD []).length = 0 := by
      simpa [List.length_eq_zero] using hne
    have heq : (renderTagsTable h tagsData d).tagsTable =
        String.join ((tagsData.tags.getD []).map (tagRow h)) := by
      simp only [renderTagsTable, hlen, if_false]
    exact ⟨heq, by rw [heq]; exact countRows_join_tagRow h hh _⟩
  · intro he
    simp only [renderTagsTable, he, List.length_nil, if_true]
  · intro hne
    have hlen : ¬ ((tagsData.tags.getD []).take 10).length = 0 := by
      cases hl : tagsData.tags.getD [] with
      | nil => exact absurd hl hne
      | cons a t => simp
    have heq : (updateLiveTagsTable h tagsData d).liveTagsTable =
        String.join (((tagsData.tags.getD []).take 10).map (liveTagRow h)) := by
      simp only [updateLiveTagsTable, hlen, if_false]
    refine ⟨heq, ?_⟩
    rw [heq, countRows_join_liveTagRow h hh, List.length_take]
    exact Nat.min_comm _ _
  · intro he
    simp only [updateLiveTagsTable, he, List.take_nil, List.length_nil, if_true]
  · intro hne
    have hlen : ¬ (publishersData.publishers.getD []).length = 0 := by
      simpa [List.length_eq_zero] using hne
    have heq : (renderPublishersGrid h publishersData d).publishersGrid =
        String.join ((publishersData.publishers.getD []).map (publisherCard h)) := by
      simp only [renderPublishersGrid, hlen, if_false]
    exact ⟨heq, fun hp => by rw [heq]; exact countCards_join_publisherCard h hh _ hp⟩
  · intro he
    have heq : (renderPublishersGrid h publishersData d).publishersGrid =
        "<div class=\"card\"><p style=\"text-align: center; color: var(--smoke-gray);\">No publishers configured</p></div>" := by
      simp only [renderPublishersGrid, he, List.length_nil, if_true]
    exact ⟨heq, by rw [heq]; decide!⟩
  · intro hne
    have hlen : ¬ (alarmsData.alarms.getD []).length = 0 := by
      simpa [List.length_eq_zero] using hne
    have heq : (renderAlarmsView h alarmsData d).alarmsContainer =
        Piece.render (alarmsTableTemplate h (alarmsData.alarms.getD [])) := by
      simp only [renderAlarmsView, hlen, if_false]
    exact ⟨by rw [heq, alarmsTable_split], fun hp => countRows_join_alarmRow h hh _ hp⟩
  · intro he
    have heq : (renderAlarmsView h alarmsData d).alarmsContainer = alarmsEmptyState := by
      simp only [renderAlarmsView, he, List.length_nil, if_true]
    exact ⟨heq, by rw [heq]; decide!⟩

/-- Instance of C7 as amended: the two sample tags give two rows in the tags
table and in the live table, twelve tags give twelve rows and ten live rows,
and the one sample publisher gives one card. -/
theorem C7_rows_follow_entries_witness :
    countRows (renderTagsTable Host.sample TagsData.sample Display.sample).tagsTable = 2 ∧
    countRows (renderTagsTable Host.sample TagsData.twelve Display.sample).tagsTable = 12 ∧
    countRows (updateLiveTagsTable Host.sample TagsData.twelve Display.sample).liveTagsTable
      = 10 ∧
    (updateLiveTagsTable Host.sample TagsData.twelve Display.sample).liveTagsTable =
      String.join (((TagsData.twelve.tags.getD []).take 10).map (liveTagRow Host.sample)) ∧
    countCards (renderPublishersGrid Host.sample PublishersData.sample Display.sample).publishersGrid
      = 1 :=
  ⟨((C7_rows_follow_entries Host.sample sample_markupFree TagsData.sample
      PublishersData.sample AlarmsData.sample Display.sample).1 (by decide)).2,
   ((C7_rows_follow_entries Host.sample sample_markupFree TagsData.twelve
      PublishersData.sample AlarmsData.sample Display.sample).1 (by decide)).2,
   ((C7_rows_follow_entries Host.sample sample_markupFree TagsData.twelve
      PublishersData.sample AlarmsData.sample Display.sample).2.2.1 (by decide)).2,
   ((C7_rows_follow_entries Host.sample sample_markupFree TagsData.twelve
      PublishersData.sample AlarmsData.sample Display.sample).2.2.1 (by decide)).1,
   ((C7_rows_follow_entries Host.sample sample_markupFree TagsData.sample
      PublishersData.sample AlarmsData.sample Display.sample).2.2.2.2.1 (by decide)).2
     (by decide)⟩

/-- C8, the code at the failing input: for the one alarm whose priority is
`x"></span></td></tr><tr><td>` (unchanged by lower-casing) `renderAlarmsView`
writes the table with the fixed head and tail around the row shown, in which
the priority stands unescaped inside the class attribute: the body holds two
`tr` start tags for the one alarm (three with the header row), the badge start
tag ends at `status-x"`, and two `span` end tags follow where one badge was
meant. The same alarm with the priority `CRITICAL` gives one body row whose
badge has the class `status-critical`. -/
theorem C8_priority_markup_adds_body_row :
    [Alarm.withRowMarkup].length = 1 ∧
    Host.sample.toLowerCase Alarm.withRowMarkup.priority = "x\"></span></td></tr><tr><td>" ∧
    (renderAlarmsView Host.sample { alarms := some [Alarm.withRowMarkup] }
        Display.sample).alarmsContainer =
      alarmsTableHead ++ String.join ([Alarm.withRowMarkup].map (alarmRow Host.sample)) ++
        alarmsTableTail ∧
    String.join ([Alarm.withRowMarkup].map (alarmRow Host.sample)) =
      "\n" ++
      "                        <tr>\n" ++
      "                            <td>\n" ++
      "                                <span class=\"status-badge status-x\"></span></td></tr><tr><td>\">\n" ++
      "                                    x\"&gt;&lt;/span&gt;&lt;/td&gt;&lt;/tr&gt;&lt;tr&gt;&lt;td&gt;\n" ++
      "                                </span>\n" ++
      "                            </td>\n" ++
      "                            <td style=\"font-weight: bold;\">HighTemp</td>\n" ++
      "                            <td>Temp</td>\n" ++
      "                            <td style=\"color: var(--fire-yellow);\">99</td>\n" ++
      "                            <td>too hot</td>\n" ++
      "                            <td>11/14/2023, 10:13:20 PM</td>\n" ++
      "                        </tr>\n" ++
      "                    " ∧
    countRows (String.join ([Alarm.withRowMarkup].map (alarmRow Host.sample))) = 2 ∧
    countRows (renderAlarmsView Host.sample { alarms := some [Alarm.withRowMarkup] }
        Display.sample).alarmsContainer = 3 ∧
    occurrences "<span class=\"status-badge status-x\">".data
      (String.join ([Alarm.withRowMarkup].map (alarmRow Host.sample))).data = 1 ∧
    occurrences "</span>".data
      (String.join ([Alarm.withRowMarkup].map (alarmRow Host.sample))).data = 2 ∧
    countRows (String.join ([Alarm.sample].map (alarmRow Host.sample))) = 1 ∧
    occurrences "<span class=\"status-badge status-critical\">".data
      (String.join ([Alarm.sample].map (alarmRow Host.sample))).data = 1 ∧
    occurrences "</span>".data
      (String.join ([Alarm.sample].map (alarmRow Host.sample))).data = 1 := by
  decide!

end Emberburn
